import Mathlib

/-!
Verification of the rule-based health-scoring and recommendation engine of the
ai-life-management-system repository (`simulation/predictor.py`,
`simulation/data_generator.py`, `simulation/run_simulation.py`).

Modelling conventions of the shallow embedding:
* Python numbers (ints and floats) are modelled as rationals `ℚ`; Python's
  `round(x)`, `round(x, 1)` and `round(x, 2)` (round-half-to-even) are modelled
  by `rndE`, `rnd1` and `rnd2`.
* Python's `str.lower()` is modelled by `pyLower` (the strings involved are
  ASCII).
* A Python `dict.get(key, 0)` lookup table is modelled by a total function on
  strings returning `0` on unknown keys.
* Fallible operations (division, which raises `ZeroDivisionError` in Python)
  return `Except String`; the exception-swallowing orchestrator
  `run_complete_analysis` is a total function into a result record whose
  optional sections model the presence or absence of the corresponding keys.
* Calls to `datetime.now().isoformat()` are modelled by an explicit `now`
  argument (the ambient clock), and calls to `random.uniform(a, b)` /
  `np.random.normal(mu, sigma)` by explicit draw arguments (a normal draw is
  `mu + sigma * z` for an unconstrained standard draw `z`).
-/

namespace LifeMS

/-- ASCII lower-casing of one character, as Python's `str.lower` acts on the
ASCII vocabulary strings used by the scoring engine. -/
def lowerChar (c : Char) : Char :=
  if 'A' ≤ c ∧ c ≤ 'Z' then Char.ofNat (c.toNat + 32) else c

/-- Python's `s.lower()` for the ASCII strings used by the engine. -/
def pyLower (s : String) : String := String.mk (s.data.map lowerChar)

/-- Python's `round` builtin on a rational: round half to even, to an integer. -/
def rndE (x : ℚ) : ℤ :=
  if x - ⌊x⌋ < 1/2 then ⌊x⌋
  else if x - ⌊x⌋ > 1/2 then ⌊x⌋ + 1
  else if Even ⌊x⌋ then ⌊x⌋ else ⌊x⌋ + 1

/-- Python's `round(x)` kept as a rational value. -/
def pyRound (x : ℚ) : ℚ := (rndE x : ℚ)

/-- Python's `round(x, 1)`. -/
def rnd1 (x : ℚ) : ℚ := (rndE (10 * x) : ℚ) / 10

/-- Python's `round(x, 2)`. -/
def rnd2 (x : ℚ) : ℚ := (rndE (100 * x) : ℚ) / 100

/-- Python division: raises `ZeroDivisionError` on a zero denominator. -/
def pdiv (a b : ℚ) : Except String ℚ :=
  if b = 0 then .error "division by zero" else .ok (a / b)

/-! ## Data model (input record schema, spec §3 / §6) -/

/-- `health_metrics["blood_pressure"]`. -/
structure BloodPressure where
  systolic : ℚ
  diastolic : ℚ

/-- `health_metrics["cholesterol"]`. -/
structure Cholesterol where
  total : ℚ
  hdl : ℚ
  ldl : ℚ

/-- The `health_metrics` record produced by `DataGenerator.generate_health_metrics`
and consumed by the scoring engine. -/
structure HealthMetrics where
  user_id : String
  blood_pressure : BloodPressure
  resting_heart_rate : ℚ
  cholesterol : Cholesterol
  fasting_glucose : ℚ
  hba1c : ℚ
  vo2_max : ℚ
  body_fat_percentage : ℚ
  measured_at : String

/-- `user_profile["family_history"]`. -/
structure FamilyHistory where
  cardiovascular_disease : Bool
  diabetes : Bool
  cancer : Bool
  neurodegenerative_disease : Bool

/-- The `user_profile` record. -/
structure UserProfile where
  user_id : String
  gender : String
  age : ℚ
  height_cm : ℚ
  weight_kg : ℚ
  bmi : ℚ
  smoking_status : String
  alcohol_frequency : String
  family_history : FamilyHistory
  created_at : String

/-- `lifestyle_data["exercise"]`. -/
structure ExerciseData where
  frequency : String
  minutes_per_week : ℚ
  types : List String

/-- `lifestyle_data["sleep"]`. -/
structure SleepData where
  average_hours : ℚ
  quality : String

/-- `lifestyle_data["diet"]`. -/
structure DietData where
  type : String
  fruit_veg_servings_daily : ℚ
  processed_food_frequency : String

/-- The `lifestyle_data` record. -/
structure LifestyleData where
  exercise : ExerciseData
  sleep : SleepData
  diet : DietData
  stress_level : String

/-- `genetic_data["risk_factors"]["cancer"]`: the five cancer subtypes the
generator produces (`generate_genetic_risk_data`). -/
structure CancerRisks where
  colorectal : ℚ
  breast : ℚ
  prostate : ℚ
  lung : ℚ
  skin : ℚ

/-- `genetic_data["risk_factors"]["neurodegenerative"]`. -/
structure NeurodegenerativeRisks where
  alzheimers : ℚ
  parkinsons : ℚ

/-- `genetic_data["risk_factors"]["autoimmune"]`. -/
structure AutoimmuneRisks where
  rheumatoid_arthritis : ℚ
  multiple_sclerosis : ℚ

/-- `genetic_data["risk_factors"]`. -/
structure RiskFactors where
  cardiovascular_disease : ℚ
  type_2_diabetes : ℚ
  cancer : CancerRisks
  neurodegenerative : NeurodegenerativeRisks
  autoimmune : AutoimmuneRisks

/-- The `genetic_data` record. -/
structure GeneticData where
  risk_factors : RiskFactors

/-- The `impedance_data` record; `estimated_biological_age` is the single field
consumed downstream (spec §3: the frequency sweep itself is not further
analyzed). -/
structure ImpedanceData where
  estimated_biological_age : ℚ

/-- The complete user dataset assembled by `generate_complete_user_dataset`
(the `daily_vitals` list is not consumed by the scoring engine). -/
structure UserData where
  user_profile : UserProfile
  health_metrics : HealthMetrics
  impedance_data : ImpedanceData
  lifestyle_data : LifestyleData
  genetic_data : GeneticData

/-! ## Scoring engine: life-expectancy prediction (`predict_life_expectancy`) -/

/-- `risk_factor_weights["smoking"].get(status, 0)`. -/
def smokingW (s : String) : ℚ :=
  if s = "never" then 0 else if s = "former" then -2 else
  if s = "current" then -10 else 0

/-- `risk_factor_weights["diet"]["processed_food"].get(freq, 0)`. -/
def processedFoodW (s : String) : ℚ :=
  if s = "rarely" then 0 else if s = "sometimes" then -4/5 else
  if s = "often" then -9/5 else if s = "very_frequently" then -3 else 0

/-- `risk_factor_weights["sleep"]["quality"].get(q, 0)`. -/
def sleepQualityW (s : String) : ℚ :=
  if s = "poor" then -3/2 else if s = "fair" then -7/10 else
  if s = "good" then 0 else if s = "excellent" then 4/5 else 0

/-- `risk_factor_weights["alcohol"].get(freq, 0)`. -/
def alcoholW (s : String) : ℚ :=
  if s = "none" then 0 else if s = "rare" then 1/2 else
  if s = "moderate" then 0 else if s = "frequent" then -3 else 0

/-- `risk_factor_weights["stress"].get(level, 0)`. -/
def stressW (s : String) : ℚ :=
  if s = "low" then 1 else if s = "moderate" then 0 else
  if s = "high" then -2 else if s = "very_high" then -4 else 0

/-- Base life expectancy by gender (predictor.py line 139). -/
def base_expectancy (u : UserData) : ℚ :=
  if pyLower u.user_profile.gender = "male" then 761/10 else 811/10

/-- Adjustment 1: smoking (lines 145-147). -/
def smoking_adj (u : UserData) : ℚ := smokingW (pyLower u.user_profile.smoking_status)

/-- Adjustment 2: BMI (lines 150-156). -/
def bmi_adj (u : UserData) : ℚ :=
  if u.user_profile.bmi > 25 then (u.user_profile.bmi - 25) * (-2/5)
  else if u.user_profile.bmi < 37/2 then (37/2 - u.user_profile.bmi) * (-3/10)
  else 0

/-- Adjustment 3: blood pressure (lines 159-164). -/
def bp_adj (u : UserData) : ℚ :=
  if u.health_metrics.blood_pressure.systolic > 115 then
    ((u.health_metrics.blood_pressure.systolic - 115) / 10) * (-6/5)
  else 0

/-- Adjustment 4 as a function of the computed total/HDL quotient (lines 167-172). -/
def chol_adj_of (r : ℚ) : ℚ := if r > 7/2 then (r - 7/2) * (-1) else 0

/-- Adjustment 5: exercise minutes, five-bucket step function (lines 175-186). -/
def exercise_adj (u : UserData) : ℚ :=
  if u.lifestyle_data.exercise.minutes_per_week = 0 then 0
  else if u.lifestyle_data.exercise.minutes_per_week ≤ 60 then 1
  else if u.lifestyle_data.exercise.minutes_per_week ≤ 150 then 5/2
  else if u.lifestyle_data.exercise.minutes_per_week ≤ 300 then 7/2
  else 21/5

/-- Adjustment 6: diet (lines 189-202). -/
def diet_adj (u : UserData) : ℚ :=
  u.lifestyle_data.diet.fruit_veg_servings_daily * (2/5)
  + (if pyLower u.lifestyle_data.diet.type = "mediterranean" then 5/2 else 0)
  + processedFoodW (pyLower u.lifestyle_data.diet.processed_food_frequency)

/-- Adjustment 7: sleep (lines 205-213). -/
def sleep_adj (u : UserData) : ℚ :=
  (if u.lifestyle_data.sleep.average_hours < 15/2 then
    (u.lifestyle_data.sleep.average_hours - 15/2) * (-1/2)
   else 0)
  + sleepQualityW (pyLower u.lifestyle_data.sleep.quality)

/-- Adjustment 8: alcohol (lines 216-218). -/
def alcohol_adj (u : UserData) : ℚ := alcoholW (pyLower u.user_profile.alcohol_frequency)

/-- Adjustment 9: stress (lines 221-223). -/
def stress_adj (u : UserData) : ℚ := stressW (pyLower u.lifestyle_data.stress_level)

/-- Number of "social" activity types in the exercise list (lines 227-228). -/
def team_activities_count (u : UserData) : ℕ :=
  (u.lifestyle_data.exercise.types.filter
    (fun act => ["team sports", "dancing", "yoga", "pilates"].contains (pyLower act))).length

/-- Adjustment 10: social connection (lines 226-232). -/
def social_adj (u : UserData) : ℚ :=
  if team_activities_count u ≠ 0 then
    min ((9/5) * ((team_activities_count u : ℚ) / 4)) (9/5)
  else 0

/-- Mean of the five generated cancer risks (`sum(values)/len(values)`). -/
def cancerAvg (c : CancerRisks) : ℚ :=
  (c.colorectal + c.breast + c.prostate + c.lung + c.skin) / 5

/-- Mean of the two generated neurodegenerative risks. -/
def neuroAvg (n : NeurodegenerativeRisks) : ℚ := (n.alzheimers + n.parkinsons) / 2

/-- Adjustment 11: genetic risk (lines 235-253). -/
def genetic_adj (u : UserData) : ℚ :=
  u.genetic_data.risk_factors.cardiovascular_disease * (-5)
  + u.genetic_data.risk_factors.type_2_diabetes * (-7/2)
  + cancerAvg u.genetic_data.risk_factors.cancer * (-4)
  + neuroAvg u.genetic_data.risk_factors.neurodegenerative * (-3)

/-- Adjustment 12: biomarker aging (lines 256-259). -/
def bio_age_adj (u : UserData) : ℚ :=
  (u.user_profile.age - u.impedance_data.estimated_biological_age) * (3/2)

/-- The `adjustments` list of (label, value) pairs built in source order
(lines 142-259); `r` is the computed total/HDL cholesterol quotient. -/
def adjustments_list (u : UserData) (r : ℚ) : List (String × ℚ) :=
  [("Smoking", smoking_adj u), ("BMI", bmi_adj u), ("Blood Pressure", bp_adj u),
   ("Cholesterol", chol_adj_of r), ("Exercise", exercise_adj u), ("Diet", diet_adj u),
   ("Sleep", sleep_adj u), ("Alcohol", alcohol_adj u), ("Stress", stress_adj u),
   ("Social Connection", social_adj u), ("Genetic Factors", genetic_adj u),
   ("Biological Age", bio_age_adj u)]

/-- `total_adjustment = sum(adj for _, adj in adjustments)` (line 262). -/
def total_adjustment (u : UserData) (r : ℚ) : ℚ :=
  ((adjustments_list u r).map Prod.snd).sum

/-- The prediction record returned by `predict_life_expectancy` (lines 274-287). -/
structure Prediction where
  user_id : String
  current_age : ℚ
  gender : String
  base_life_expectancy : ℚ
  predicted_life_expectancy : ℚ
  confidence_interval : ℚ × ℚ
  expected_remaining_years : ℚ
  factors : List (String × ℚ)
  predicted_at : String

/-- `LifePredictor.predict_life_expectancy` (lines 118-289); the only fallible
operation is the total/HDL cholesterol division (line 167). -/
def predict_life_expectancy (now : String) (u : UserData) : Except String Prediction :=
  match pdiv u.health_metrics.cholesterol.total u.health_metrics.cholesterol.hdl with
  | .error e => .error e
  | .ok r => .ok
    { user_id := u.user_profile.user_id
      current_age := u.user_profile.age
      gender := u.user_profile.gender
      base_life_expectancy := base_expectancy u
      predicted_life_expectancy := rnd1 (base_expectancy u + total_adjustment u r)
      confidence_interval :=
        (rnd1 (base_expectancy u + total_adjustment u r - 21/5),
         rnd1 (base_expectancy u + total_adjustment u r + 21/5))
      expected_remaining_years :=
        rnd1 (base_expectancy u + total_adjustment u r - u.user_profile.age)
      factors := adjustments_list u r
      predicted_at := now }

/-! ## Scoring engine: biological age (`calculate_biological_age`) -/

/-- Blood-pressure age factor (lines 318-330). -/
def bp_age_factor (hm : HealthMetrics) : ℚ :=
  if hm.blood_pressure.systolic ≤ 120 ∧ hm.blood_pressure.diastolic ≤ 80 then -5
  else if hm.blood_pressure.systolic ≤ 130 ∧ hm.blood_pressure.diastolic ≤ 85 then 0
  else if hm.blood_pressure.systolic ≤ 140 ∧ hm.blood_pressure.diastolic ≤ 90 then 5
  else 10

/-- Resting-heart-rate age factor (lines 333-346). -/
def hr_age_factor (hm : HealthMetrics) : ℚ :=
  if hm.resting_heart_rate < 60 then -5
  else if hm.resting_heart_rate ≤ 70 then -2
  else if hm.resting_heart_rate ≤ 80 then 0
  else if hm.resting_heart_rate ≤ 90 then 3
  else 7

/-- Cholesterol age factor of the total/HDL quotient (lines 349-363). -/
def chol_age_factor_of (r : ℚ) : ℚ :=
  if r < 7/2 then -3 else if r < 9/2 then 0 else if r < 11/2 then 3 else 7

/-- Cardiovascular-age adjustment: unweighted mean of its three factors (line 366). -/
def cv_age_adjustment (hm : HealthMetrics) (r : ℚ) : ℚ :=
  (bp_age_factor hm + hr_age_factor hm + chol_age_factor_of r) / 3

/-- Fasting-glucose age factor (lines 372-385). -/
def glucose_age_factor (hm : HealthMetrics) : ℚ :=
  if hm.fasting_glucose < 90 then -3
  else if hm.fasting_glucose ≤ 100 then 0
  else if hm.fasting_glucose ≤ 110 then 2
  else if hm.fasting_glucose ≤ 125 then 5
  else 10

/-- HbA1c age factor (lines 388-401). -/
def hba1c_age_factor (hm : HealthMetrics) : ℚ :=
  if hm.hba1c < 5 then -3
  else if hm.hba1c ≤ 28/5 then 0
  else if hm.hba1c ≤ 6 then 2
  else if hm.hba1c ≤ 32/5 then 5
  else 10

/-- BMI age factor (lines 404-415). -/
def bmi_age_factor (p : UserProfile) : ℚ :=
  if 37/2 ≤ p.bmi ∧ p.bmi ≤ 249/10 then -2
  else if 25 ≤ p.bmi ∧ p.bmi ≤ 299/10 then 1
  else if p.bmi ≥ 30 then 5
  else 0

/-- Metabolic-age adjustment: unweighted mean of its three factors (line 418). -/
def metabolic_age_adjustment (p : UserProfile) (hm : HealthMetrics) : ℚ :=
  (glucose_age_factor hm + hba1c_age_factor hm + bmi_age_factor p) / 3

/-- VO2-max reference value by gender and chronological age (lines 427-448). -/
def vo2_ref (gender : String) (age : ℚ) : ℚ :=
  if pyLower gender = "male" then
    (if age < 30 then 45 else if age < 40 then 42 else if age < 50 then 38
     else if age < 60 then 35 else 32)
  else
    (if age < 30 then 38 else if age < 40 then 35 else if age < 50 then 32
     else if age < 60 then 29 else 26)

/-- Fitness age factor from the VO2-max delta (lines 451-452). -/
def fitness_age_factor (p : UserProfile) (hm : HealthMetrics) : ℚ :=
  -(hm.vo2_max - vo2_ref p.gender p.age) / 2

/-- Exercise-habits age factor (lines 457-466). -/
def exercise_age_factor (l : LifestyleData) : ℚ :=
  if l.exercise.minutes_per_week ≥ 300 then -4
  else if l.exercise.minutes_per_week ≥ 150 then -2
  else if l.exercise.minutes_per_week ≥ 60 then 0
  else 3

/-- Fitness-age adjustment: unweighted mean of its two factors (line 471). -/
def fitness_age_adjustment (p : UserProfile) (hm : HealthMetrics) (l : LifestyleData) : ℚ :=
  (fitness_age_factor p hm + exercise_age_factor l) / 2

/-- Sleep age factor (lines 477-487). -/
def sleep_age_factor (l : LifestyleData) : ℚ :=
  if l.sleep.average_hours ≥ 7 ∧
      (pyLower l.sleep.quality = "good" ∨ pyLower l.sleep.quality = "excellent") then -3
  else if l.sleep.average_hours ≥ 13/2 ∧
      (pyLower l.sleep.quality = "fair" ∨ pyLower l.sleep.quality = "good" ∨
       pyLower l.sleep.quality = "excellent") then -1
  else if l.sleep.average_hours < 6 ∨ pyLower l.sleep.quality = "poor" then 3
  else 0

/-- Diet age factor (lines 492-514). -/
def diet_age_factor (l : LifestyleData) : ℚ :=
  (if pyLower l.diet.type = "mediterranean" ∨ pyLower l.diet.type = "vegetarian" ∨
      pyLower l.diet.type = "vegan" then -2 else 0)
  + (if l.diet.fruit_veg_servings_daily ≥ 5 then -2
     else if l.diet.fruit_veg_servings_daily ≥ 3 then -1
     else if l.diet.fruit_veg_servings_daily < 1 then 2
     else 0)
  + (if pyLower l.diet.processed_food_frequency = "rarely" then -1
     else if pyLower l.diet.processed_food_frequency = "very frequently" then 2
     else 0)

/-- Stress age factor (lines 519-530). -/
def stress_age_factor (l : LifestyleData) : ℚ :=
  if pyLower l.stress_level = "low" then -2
  else if pyLower l.stress_level = "moderate" then 0
  else if pyLower l.stress_level = "high" then 2
  else 4

/-- Lifestyle-age adjustment: unweighted mean of its three factors (line 533). -/
def lifestyle_age_adjustment (l : LifestyleData) : ℚ :=
  (sleep_age_factor l + diet_age_factor l + stress_age_factor l) / 3

/-- The biological age before the floor at 20 (lines 546-551): chronological age,
impedance age substituted for the baseline, plus the four domain adjustments,
each with implicit weight 1; `r` is the total/HDL quotient. -/
def biological_age_raw (u : UserData) (r : ℚ) : ℚ :=
  u.user_profile.age
  + (u.impedance_data.estimated_biological_age - u.user_profile.age)
  + cv_age_adjustment u.health_metrics r
  + metabolic_age_adjustment u.user_profile u.health_metrics
  + fitness_age_adjustment u.user_profile u.health_metrics u.lifestyle_data
  + lifestyle_age_adjustment u.lifestyle_data

/-- One weighted entry of the biological-age factor breakdown. -/
structure FactorWeighted where
  adjustment : ℚ
  weight : ℚ

/-- The impedance entry of the factor breakdown. -/
structure ImpedanceFactor where
  age : ℚ
  weight : ℚ

/-- The `factors` breakdown of the biological-age result (lines 562-583); the
weights are reported for display only (spec §4 open question). -/
structure BioAgeFactors where
  impedance_based : ImpedanceFactor
  cardiovascular : FactorWeighted
  metabolic : FactorWeighted
  fitness : FactorWeighted
  lifestyle : FactorWeighted

/-- The record returned by `calculate_biological_age` (lines 557-585). -/
structure BioAgeResult where
  user_id : String
  chronological_age : ℚ
  biological_age : ℚ
  age_difference : ℚ
  factors : BioAgeFactors
  calculated_at : String

/-- `LifePredictor.calculate_biological_age` (lines 291-587); the only fallible
operation is the total/HDL cholesterol division (line 352). -/
def calculate_biological_age (now : String) (u : UserData) : Except String BioAgeResult :=
  match pdiv u.health_metrics.cholesterol.total u.health_metrics.cholesterol.hdl with
  | .error e => .error e
  | .ok r => .ok
    { user_id := u.user_profile.user_id
      chronological_age := u.user_profile.age
      biological_age := rnd1 (max 20 (biological_age_raw u r))
      age_difference := rnd1 (max 20 (biological_age_raw u r) - u.user_profile.age)
      factors :=
        { impedance_based := ⟨rnd1 u.impedance_data.estimated_biological_age, 2/5⟩
          cardiovascular := ⟨rnd1 (cv_age_adjustment u.health_metrics r), 1/5⟩
          metabolic := ⟨rnd1 (metabolic_age_adjustment u.user_profile u.health_metrics), 1/5⟩
          fitness := ⟨rnd1 (fitness_age_adjustment u.user_profile u.health_metrics
            u.lifestyle_data), 1/10⟩
          lifestyle := ⟨rnd1 (lifestyle_age_adjustment u.lifestyle_data), 1/10⟩ }
      calculated_at := now }

/-! ## Scoring engine: disease risks (`calculate_health_risks`) -/

/-- Blood-pressure risk factor (lines 618-628). -/
def bp_risk_factor (hm : HealthMetrics) : ℚ :=
  if hm.blood_pressure.systolic > 140 ∨ hm.blood_pressure.diastolic > 90 then 3/10
  else if hm.blood_pressure.systolic > 130 ∨ hm.blood_pressure.diastolic > 85 then 1/5
  else if hm.blood_pressure.systolic > 120 ∨ hm.blood_pressure.diastolic > 80 then 1/10
  else 0

/-- Cholesterol risk factor of the total/HDL quotient (lines 633-645). -/
def chol_risk_factor_of (r : ℚ) : ℚ :=
  if r > 5 then 3/10 else if r > 4 then 1/5 else if r > 7/2 then 1/10 else 0

/-- Smoking risk factor for the cardiovascular category (lines 650-657). -/
def smoking_risk_factor (p : UserProfile) : ℚ :=
  if pyLower p.smoking_status = "current" then 2/5
  else if pyLower p.smoking_status = "former" then 1/10
  else 0

/-- Exercise risk factor shared by the cardiovascular, metabolic and
neurological categories (lines 662-669). -/
def exercise_risk_factor (l : LifestyleData) : ℚ :=
  if l.exercise.minutes_per_week < 30 then 1/5
  else if l.exercise.minutes_per_week < 90 then 1/10
  else 0

/-- BMI risk factor for the cardiovascular category (lines 674-681). -/
def bmi_cv_risk_factor (p : UserProfile) : ℚ :=
  if p.bmi > 30 then 1/5 else if p.bmi > 25 then 1/10 else 0

/-- Cardiovascular risk: unweighted mean of six factors, capped at 1 (lines 685-688). -/
def cardiovascular_risk (u : UserData) (r : ℚ) : ℚ :=
  min 1 ((u.genetic_data.risk_factors.cardiovascular_disease + bp_risk_factor u.health_metrics
    + chol_risk_factor_of r + smoking_risk_factor u.user_profile
    + exercise_risk_factor u.lifestyle_data + bmi_cv_risk_factor u.user_profile) / 6)

/-- Glucose risk factor (lines 698-706). -/
def glucose_risk_factor (hm : HealthMetrics) : ℚ :=
  if hm.fasting_glucose > 125 ∨ hm.hba1c > 32/5 then 1/2
  else if hm.fasting_glucose > 100 ∨ hm.hba1c > 57/10 then 3/10
  else 0

/-- BMI risk factor for the metabolic category (lines 711-716). -/
def bmi_metabolic_risk_factor (p : UserProfile) : ℚ :=
  if p.bmi > 30 then 3/10 else if p.bmi > 25 then 1/5 else 0

/-- Diet risk factor for the metabolic category (lines 731-742). -/
def diet_metabolic_risk_factor (l : LifestyleData) : ℚ :=
  (if pyLower l.diet.processed_food_frequency = "very frequently" then 1/5
   else if pyLower l.diet.processed_food_frequency = "often" then 1/10
   else 0)
  + (if l.diet.fruit_veg_servings_daily < 2 then 1/10 else 0)

/-- Metabolic risk: unweighted mean of five factors, capped at 1 (lines 747-748). -/
def metabolic_risk (u : UserData) : ℚ :=
  min 1 ((u.genetic_data.risk_factors.type_2_diabetes + glucose_risk_factor u.health_metrics
    + bmi_metabolic_risk_factor u.user_profile + exercise_risk_factor u.lifestyle_data
    + diet_metabolic_risk_factor u.lifestyle_data) / 5)

/-- Neurological genetic base risk (lines 755-758). -/
def neuro_genetic_risk (rf : RiskFactors) : ℚ :=
  (rf.neurodegenerative.alzheimers + rf.neurodegenerative.parkinsons) / 2

/-- Sleep risk factor (lines 762-773). -/
def sleep_risk_factor (l : LifestyleData) : ℚ :=
  (if l.sleep.average_hours < 6 then 1/5
   else if l.sleep.average_hours < 7 then 1/10
   else 0)
  + (if pyLower l.sleep.quality = "poor" then 1/10 else 0)

/-- Stress risk factor (lines 778-787). -/
def stress_risk_factor (l : LifestyleData) : ℚ :=
  if pyLower l.stress_level = "very high" then 3/10
  else if pyLower l.stress_level = "high" then 1/5
  else if pyLower l.stress_level = "moderate" then 1/10
  else 0

/-- Diet risk factor for the neurological category, clamped to be
non-negative (lines 802-812). -/
def diet_neuro_risk_factor (l : LifestyleData) : ℚ :=
  max 0 ((if pyLower l.diet.type = "mediterranean" then -1/10 else 0)
    + (if l.diet.fruit_veg_servings_daily < 3 then 1/10 else 0))

/-- Neurological risk: unweighted mean of five factors, capped at 1 (lines 815-816). -/
def neurological_risk (u : UserData) : ℚ :=
  min 1 ((neuro_genetic_risk u.genetic_data.risk_factors + sleep_risk_factor u.lifestyle_data
    + stress_risk_factor u.lifestyle_data + exercise_risk_factor u.lifestyle_data
    + diet_neuro_risk_factor u.lifestyle_data) / 5)

/-- Smoking risk factor for the cancer category (lines 826-831). -/
def smoking_cancer_risk_factor (p : UserProfile) : ℚ :=
  if pyLower p.smoking_status = "current" then 3/10
  else if pyLower p.smoking_status = "former" then 1/10
  else 0

/-- Exercise risk factor for the cancer category (lines 836-839). -/
def exercise_cancer_risk_factor (l : LifestyleData) : ℚ :=
  if l.exercise.minutes_per_week < 30 then 1/10 else 0

/-- Diet risk factor for the cancer category (lines 844-847). -/
def diet_cancer_risk_factor (l : LifestyleData) : ℚ :=
  if l.diet.fruit_veg_servings_daily < 2 then 1/10 else 0

/-- Cancer risk: unweighted mean of four factors, capped at 1 (lines 852-853). -/
def cancer_risk (u : UserData) : ℚ :=
  min 1 ((cancerAvg u.genetic_data.risk_factors.cancer
    + smoking_cancer_risk_factor u.user_profile + exercise_cancer_risk_factor u.lifestyle_data
    + diet_cancer_risk_factor u.lifestyle_data) / 4)

/-- `LifePredictor._categorize_risk` (lines 909-926). -/
def categorize_risk (risk_level : ℚ) : String :=
  if risk_level < 3/20 then "Low"
  else if risk_level < 7/20 then "Moderate"
  else if risk_level < 3/5 then "High"
  else "Very High"

/-- One per-category entry of the risk assessment: rounded level, label, and
the (label, rounded value) contributing-factor breakdown in source order. -/
structure RiskEntry where
  risk_level : ℚ
  category : String
  factors : List (String × ℚ)

/-- The four disease categories of the assessment (lines 858-903). -/
structure RisksByCategory where
  cardiovascular : RiskEntry
  metabolic : RiskEntry
  neurological : RiskEntry
  cancer : RiskEntry

/-- The record returned by `calculate_health_risks` (lines 856-905). -/
structure RiskAssessment where
  user_id : String
  risks : RisksByCategory
  assessed_at : String

/-- `LifePredictor.calculate_health_risks` (lines 589-907); the only fallible
operation is the total/HDL cholesterol division (line 636).

The Python locals `smoking_risk_factor`, `exercise_risk_factor`,
`bmi_risk_factor` and `diet_risk_factor` are reassigned as each category is
computed, and the output dict is built only at line 856, so every `factors`
breakdown reports the LAST value assigned to each of those names: `smoking` and
`exercise` report the cancer-category values, `bmi` the metabolic-category
value, and `diet` the cancer-category value, in every breakdown that mentions
them. The per-category risk levels use the values current at computation time. -/
def calculate_health_risks (now : String) (u : UserData) : Except String RiskAssessment :=
  match pdiv u.health_metrics.cholesterol.total u.health_metrics.cholesterol.hdl with
  | .error e => .error e
  | .ok r => .ok
    { user_id := u.user_profile.user_id
      risks :=
        { cardiovascular :=
            { risk_level := rnd2 (cardiovascular_risk u r)
              category := categorize_risk (cardiovascular_risk u r)
              factors :=
                [("genetic", rnd2 u.genetic_data.risk_factors.cardiovascular_disease),
                 ("blood_pressure", rnd2 (bp_risk_factor u.health_metrics)),
                 ("cholesterol", rnd2 (chol_risk_factor_of r)),
                 ("smoking", rnd2 (smoking_cancer_risk_factor u.user_profile)),
                 ("exercise", rnd2 (exercise_cancer_risk_factor u.lifestyle_data)),
                 ("bmi", rnd2 (bmi_metabolic_risk_factor u.user_profile))] }
          metabolic :=
            { risk_level := rnd2 (metabolic_risk u)
              category := categorize_risk (metabolic_risk u)
              factors :=
                [("genetic", rnd2 u.genetic_data.risk_factors.type_2_diabetes),
                 ("glucose", rnd2 (glucose_risk_factor u.health_metrics)),
                 ("bmi", rnd2 (bmi_metabolic_risk_factor u.user_profile)),
                 ("exercise", rnd2 (exercise_cancer_risk_factor u.lifestyle_data)),
                 ("diet", rnd2 (diet_cancer_risk_factor u.lifestyle_data))] }
          neurological :=
            { risk_level := rnd2 (neurological_risk u)
              category := categorize_risk (neurological_risk u)
              factors :=
                [("genetic", rnd2 (neuro_genetic_risk u.genetic_data.risk_factors)),
                 ("sleep", rnd2 (sleep_risk_factor u.lifestyle_data)),
                 ("stress", rnd2 (stress_risk_factor u.lifestyle_data)),
                 ("exercise", rnd2 (exercise_cancer_risk_factor u.lifestyle_data)),
                 ("diet", rnd2 (diet_cancer_risk_factor u.lifestyle_data))] }
          cancer :=
            { risk_level := rnd2 (cancer_risk u)
              category := categorize_risk (cancer_risk u)
              factors :=
                [("genetic", rnd2 (cancerAvg u.genetic_data.risk_factors.cancer)),
                 ("smoking", rnd2 (smoking_cancer_risk_factor u.user_profile)),
                 ("exercise", rnd2 (exercise_cancer_risk_factor u.lifestyle_data)),
                 ("diet", rnd2 (diet_cancer_risk_factor u.lifestyle_data))] } }
      assessed_at := now }

/-! ## Recommendation generator (`generate_recommendations`) -/

/-- One recommendation record: priority, text, impact description. -/
structure Recommendation where
  priority : String
  recommendation : String
  impact : String

/-- The six fixed recommendation categories, in the insertion order of the
source dict (lines 965-972). -/
structure Recommendations where
  exercise : List Recommendation
  nutrition : List Recommendation
  sleep : List Recommendation
  stress_management : List Recommendation
  health_monitoring : List Recommendation
  lifestyle : List Recommendation

/-- Membership of a risk-category label in {High, Very High}. -/
def isHVH (c : String) : Bool := c = "High" ∨ c = "Very High"

/-- Exercise recommendations (lines 974-1007). -/
def exercise_recs (u : UserData) (risks : RiskAssessment) : List Recommendation :=
  (if u.lifestyle_data.exercise.minutes_per_week < 30 then
    [⟨"High",
      "Start with 10 minutes of moderate activity daily, gradually increasing to at least 30 minutes per day, 5 days per week.",
      "Essential for cardiovascular health, metabolic health, and longevity"⟩]
   else if u.lifestyle_data.exercise.minutes_per_week < 150 then
    [⟨"Medium",
      "Increase physical activity to reach at least 150 minutes of moderate exercise per week.",
      "Can reduce cardiovascular and metabolic disease risk by 20-30%"⟩]
   else
    [⟨"Low",
      "Maintain current exercise levels and consider adding strength training if not already included.",
      "Helps maintain muscle mass and metabolic health with aging"⟩])
  ++ (if isHVH risks.risks.cardiovascular.category
        ∨ u.health_metrics.resting_heart_rate > 80 then
    [⟨"High",
      "Include aerobic exercises like brisk walking, swimming, or cycling at least 3 times per week.",
      "Can significantly improve heart health and lower resting heart rate"⟩]
   else [])
  ++ (if u.user_profile.age > 50
        ∨ ¬ (u.lifestyle_data.exercise.types.map pyLower).contains "weight training" then
    [⟨"Medium",
      "Add resistance training exercises 2-3 times per week to maintain muscle mass and bone density.",
      "Critical for maintaining functional independence with age"⟩]
   else [])

/-- Nutrition recommendations (lines 1009-1029); note that the processed-food
test at line 1017 compares the RAW field value against lowercase literals. -/
def nutrition_recs (u : UserData) (risks : RiskAssessment) : List Recommendation :=
  (if u.lifestyle_data.diet.fruit_veg_servings_daily < 3 then
    [⟨"High",
      "Increase fruit and vegetable intake to at least 5 servings per day.",
      "Associated with reduced risk of cardiovascular disease, cancer, and all-cause mortality"⟩]
   else [])
  ++ (if u.lifestyle_data.diet.processed_food_frequency = "often"
        ∨ u.lifestyle_data.diet.processed_food_frequency = "very frequently" then
    [⟨"High",
      "Reduce consumption of processed foods, especially those high in added sugars and unhealthy fats.",
      "Can significantly improve metabolic health and reduce inflammation"⟩]
   else [])
  ++ (if pyLower u.lifestyle_data.diet.type ≠ "mediterranean"
        ∧ (isHVH risks.risks.cardiovascular.category ∨ isHVH risks.risks.cancer.category) then
    [⟨"Medium",
      "Consider adopting a Mediterranean diet pattern rich in olive oil, nuts, fish, and whole grains.",
      "Strong evidence for reducing cardiovascular disease risk and certain cancers"⟩]
   else [])

/-- Sleep recommendations (lines 1031-1044). -/
def sleep_recs (u : UserData) : List Recommendation :=
  if u.lifestyle_data.sleep.average_hours < 7
      ∨ pyLower u.lifestyle_data.sleep.quality = "poor"
      ∨ pyLower u.lifestyle_data.sleep.quality = "fair" then
    [⟨"High",
      "Aim for 7-8 hours of quality sleep per night by establishing a regular sleep schedule and optimizing your sleep environment.",
      "Critical for cognitive function, immune health, and metabolic regulation"⟩]
    ++ (if pyLower u.lifestyle_data.sleep.quality = "poor" then
      [⟨"Medium",
        "Implement good sleep hygiene practices: limit screen time before bed, keep bedroom cool and dark, avoid caffeine after noon.",
        "Can significantly improve sleep onset and quality"⟩]
     else [])
  else []

/-- Stress-management recommendations (lines 1046-1058). -/
def stress_management_recs (u : UserData) : List Recommendation :=
  if pyLower u.lifestyle_data.stress_level = "high"
      ∨ pyLower u.lifestyle_data.stress_level = "very high" then
    [⟨"High",
      "Incorporate daily stress reduction practices such as meditation, deep breathing, or mindfulness for at least 10-15 minutes.",
      "Reduces stress hormones and improves cardiovascular and immune function"⟩,
     ⟨"Medium",
      "Consider limiting exposure to stressors, including reducing news consumption and setting boundaries on work hours.",
      "Helps manage chronic stress that contributes to premature aging"⟩]
  else []

/-- Health-monitoring recommendations (lines 1060-1080). -/
def health_monitoring_recs (u : UserData) (risks : RiskAssessment) : List Recommendation :=
  (if u.user_profile.age > 40 then
    [⟨"Medium",
      "Schedule annual comprehensive health check-ups including cardiovascular assessment and appropriate cancer screenings.",
      "Early detection significantly improves treatment outcomes"⟩]
   else [])
  ++ (if u.user_profile.bmi > 30 ∨ isHVH risks.risks.metabolic.category then
    [⟨"High",
      "Monitor blood glucose levels regularly and get HbA1c tested every 6 months.",
      "Helps detect prediabetes early when lifestyle interventions are most effective"⟩]
   else [])
  ++ (if u.health_metrics.blood_pressure.systolic > 130
        ∨ u.health_metrics.blood_pressure.diastolic > 85 then
    [⟨"High",
      "Track blood pressure weekly and work with healthcare provider to develop a management plan.",
      "Reduces risk of stroke, heart disease, and kidney problems"⟩]
   else [])

/-- Lifestyle recommendations (lines 1082-1095). -/
def lifestyle_recs (u : UserData) : List Recommendation :=
  (if pyLower u.user_profile.smoking_status = "current" then
    [⟨"Very High",
      "Quit smoking with appropriate cessation support such as counseling, nicotine replacement, or medications.",
      "Single most effective action to improve health and longevity, adding up to 10 years of life"⟩]
   else [])
  ++ (if pyLower u.user_profile.alcohol_frequency = "frequent" then
    [⟨"High",
      "Reduce alcohol consumption to no more than 1 drink per day for women or 2 drinks per day for men.",
      "Reduces risk of liver disease, cancer, and cardiovascular problems"⟩]
   else [])

/-- The full recommendations mapping built by `generate_recommendations`
(lines 964-1095). -/
def build_recommendations (u : UserData) (risks : RiskAssessment) : Recommendations :=
  { exercise := exercise_recs u risks
    nutrition := nutrition_recs u risks
    sleep := sleep_recs u
    stress_management := stress_management_recs u
    health_monitoring := health_monitoring_recs u risks
    lifestyle := lifestyle_recs u }

/-- A high-priority entry after tagging with its category (lines 1123-1128). -/
structure TopRecommendation where
  category : String
  recommendation : String
  priority : String
  impact : String

/-- `rec["priority"] in ["High", "Very High"]` (line 1122). -/
def is_high_priority (r : Recommendation) : Bool :=
  r.priority = "High" ∨ r.priority = "Very High"

/-- Filter one category list to its high-priority entries, tagged with the
category name (lines 1120-1128). -/
def tag_category (c : String) (l : List Recommendation) : List TopRecommendation :=
  (l.filter is_high_priority).map (fun r => ⟨c, r.recommendation, r.priority, r.impact⟩)

/-- The flattened, filtered list before sorting, in the category insertion
order of the `recommendations` dict. -/
def collect_high_priority (m : Recommendations) : List TopRecommendation :=
  tag_category "exercise" m.exercise ++ tag_category "nutrition" m.nutrition
  ++ tag_category "sleep" m.sleep ++ tag_category "stress_management" m.stress_management
  ++ tag_category "health_monitoring" m.health_monitoring
  ++ tag_category "lifestyle" m.lifestyle

/-- The sort key of line 1131: `0 if priority == "Very High" else 1`. -/
def sort_key (t : TopRecommendation) : ℕ :=
  if t.priority = "Very High" then 0 else 1

/-- Stable insertion of one element by `sort_key`: placed before the first
element whose key is not smaller, hence after all earlier equal-key elements. -/
def insert_by_key (a : TopRecommendation) : List TopRecommendation → List TopRecommendation
  | [] => [a]
  | b :: l => if sort_key a ≤ sort_key b then a :: b :: l else b :: insert_by_key a l

/-- Python's `list.sort(key=...)` is specified to be a stable sort; it is
modelled by stable insertion sort on the same key. -/
def py_stable_sort : List TopRecommendation → List TopRecommendation
  | [] => []
  | a :: l => insert_by_key a (py_stable_sort l)

/-- `LifePredictor._extract_high_priority_recommendations` (lines 1108-1133). -/
def extract_high_priority_recommendations (m : Recommendations) : List TopRecommendation :=
  py_stable_sort (collect_high_priority m)

/-- `high_priority_count` of lines 1148-1149: the number of High / Very High
entries across all categories. -/
def high_priority_count (m : Recommendations) : ℕ :=
  ((m.exercise ++ m.nutrition ++ m.sleep ++ m.stress_management
    ++ m.health_monitoring ++ m.lifestyle).filter is_high_priority).length

/-- The record returned by `_estimate_impact_on_life_expectancy` (lines 1160-1165). -/
structure PotentialImpact where
  current_life_expectancy : ℚ
  potential_life_expectancy : ℚ
  potential_years_gained : ℚ
  note : String

/-- `LifePredictor._estimate_impact_on_life_expectancy` (lines 1135-1165). -/
def estimate_impact_on_life_expectancy (m : Recommendations) (predictions : Prediction) :
    PotentialImpact :=
  { current_life_expectancy := predictions.predicted_life_expectancy
    potential_life_expectancy :=
      rnd1 (predictions.predicted_life_expectancy
        + min ((high_priority_count m : ℚ) * (4/5)) 8)
    potential_years_gained := rnd1 (min ((high_priority_count m : ℚ) * (4/5)) 8)
    note := "Estimated impact if all high priority recommendations are followed consistently" }

/-- The record returned by `generate_recommendations` (lines 1097-1106). -/
structure RecommendationsResult where
  user_id : String
  recommendations : Recommendations
  top_priorities : List TopRecommendation
  potential_impact : PotentialImpact
  generated_at : String

/-- `LifePredictor.generate_recommendations` (lines 928-1106): a pure function
of the user record, prediction, risk assessment, and the ambient clock value
`now` recorded in `generated_at`. -/
def generate_recommendations (now : String) (u : UserData) (predictions : Prediction)
    (risks : RiskAssessment) : RecommendationsResult :=
  { user_id := u.user_profile.user_id
    recommendations := build_recommendations u risks
    top_priorities := extract_high_priority_recommendations (build_recommendations u risks)
    potential_impact :=
      estimate_impact_on_life_expectancy (build_recommendations u risks) predictions
    generated_at := now }

/-! ## Report assembler (`run_complete_analysis`) -/

/-- The aggregate analysis result: on success the four sections are present and
`status = "success"`; on failure only `status = "error"` and `error_message`
are present (the Python error dict omits the section keys, modelled by
`Option`). -/
structure AnalysisResult where
  user_id : String
  life_expectancy : Option Prediction
  biological_age : Option BioAgeResult
  health_risks : Option RiskAssessment
  recommendations : Option RecommendationsResult
  status : String
  error_message : Option String
  analysis_completed_at : Option String
  analysis_attempted_at : Option String

/-- The error result built by the `except` branch (lines 1203-1212). -/
def error_result (now : String) (u : UserData) (e : String) : AnalysisResult :=
  { user_id := u.user_profile.user_id
    life_expectancy := none
    biological_age := none
    health_risks := none
    recommendations := none
    status := "error"
    error_message := some e
    analysis_completed_at := none
    analysis_attempted_at := some now }

/-- `LifePredictor.run_complete_analysis` (lines 1167-1212): the broad
`try/except` around the pipeline is modelled by matching on each fallible
stage and building the error result on the first failure. -/
def run_complete_analysis (now : String) (u : UserData) : AnalysisResult :=
  match predict_life_expectancy now u with
  | .error e => error_result now u e
  | .ok le =>
    match calculate_biological_age now u with
    | .error e => error_result now u e
    | .ok ba =>
      match calculate_health_risks now u with
      | .error e => error_result now u e
      | .ok hr =>
        { user_id := u.user_profile.user_id
          life_expectancy := some le
          biological_age := some ba
          health_risks := some hr
          recommendations := some (generate_recommendations now u le hr)
          status := "success"
          error_message := none
          analysis_completed_at := some now
          analysis_attempted_at := none }

/-! ## Scenario mutator (`run_simulation.py`, `_apply_quit_smoking_scenario`) -/

/-- `SimulationRunner._apply_quit_smoking_scenario` (run_simulation.py lines
654-697). The in-place mutation is modelled by returning the updated record;
the five `random.uniform` draws are the arguments `r_hr` (5..12), `r_sys`
(5..12), `r_dia` (3..8), `r_vo2` (5..15) and `r_chol` (0.05..0.10). -/
def apply_quit_smoking_scenario (u : UserData)
    (r_hr r_sys r_dia r_vo2 r_chol : ℚ) : UserData :=
  if pyLower u.user_profile.smoking_status ≠ "current" then u
  else
    { u with
      user_profile := { u.user_profile with smoking_status := "Former" }
      health_metrics := { u.health_metrics with
        resting_heart_rate := max 60 (u.health_metrics.resting_heart_rate - r_hr)
        blood_pressure :=
          ⟨max 110 (u.health_metrics.blood_pressure.systolic - r_sys),
           max 70 (u.health_metrics.blood_pressure.diastolic - r_dia)⟩
        vo2_max := u.health_metrics.vo2_max + r_vo2
        cholesterol :=
          ⟨max 150 (u.health_metrics.cholesterol.total * (1 - r_chol)),
           u.health_metrics.cholesterol.hdl,
           max 70 (u.health_metrics.cholesterol.ldl * (1 - r_chol))⟩ } }

/-! ## Synthetic data generator (`data_generator.py`, `generate_health_metrics`) -/

/-- Total cholesterol (data_generator.py lines 149-154): normal draw around
`170 + age factor + BMI factor`, rounded to an integer; `z_chol` is the
standard-normal draw. -/
def gen_cholesterol_total (p : UserProfile) (z_chol : ℚ) : ℚ :=
  pyRound (170 + max 0 (p.age - 20) * (1/2) + max 0 (p.bmi - 25) * 2 + 15 * z_chol)

/-- The HDL normal draw before the upper clamp (lines 158-159). -/
def gen_hdl_raw (p : UserProfile) (z_hdl : ℚ) : ℚ :=
  pyRound ((if p.gender = "Female" then 50 else 40) + 8 * z_hdl)

/-- HDL after the clamp `hdl = min(hdl, cholesterol - 50)` (line 160); there is
no lower clamp. -/
def gen_hdl (p : UserProfile) (z_chol z_hdl : ℚ) : ℚ :=
  min (gen_hdl_raw p z_hdl) (gen_cholesterol_total p z_chol - 50)

/-- LDL (lines 164-165). -/
def gen_ldl (p : UserProfile) (z_chol z_hdl z_ldl : ℚ) : ℚ :=
  max (gen_cholesterol_total p z_chol - gen_hdl p z_chol z_hdl - pyRound (30 + 5 * z_ldl)) 30

/-- Fasting glucose (lines 168-169). -/
def gen_glucose (p : UserProfile) (z_glu : ℚ) : ℚ :=
  pyRound (85 + max 0 (p.bmi - 25) * (1/2) + 8 * z_glu)

/-- Smoking factor on blood pressure (line 134); compares the raw field. -/
def gen_smoking_factor (p : UserProfile) : ℚ :=
  if p.smoking_status = "Current" then 7 else if p.smoking_status = "Former" then 3 else 0

/-- `DataGenerator.generate_health_metrics` (lines 110-207); every
`np.random.normal(mu, sigma)` is modelled as `mu + sigma * z` for an
unconstrained standard-normal draw `z`, and `fitness_level` is the
`random.uniform(0, 1)` draw of line 145. -/
def generate_health_metrics (p : UserProfile) (now : String)
    (z_sys z_dia fitness_level z_hr z_chol z_hdl z_ldl z_glu z_hba z_vo2 z_fat : ℚ) :
    HealthMetrics :=
  { user_id := p.user_id
    blood_pressure :=
      ⟨pyRound ((if p.gender = "Female" then 110 else 115) + max 0 (p.age - 30) * (1/2)
          + max 0 (p.bmi - 25) + gen_smoking_factor p + 8 * z_sys),
       pyRound ((if p.gender = "Female" then 70 else 75) + (max 0 (p.age - 30) * (1/2)) / 2
          + (max 0 (p.bmi - 25)) / 2 + gen_smoking_factor p / 2 + 6 * z_dia)⟩
    resting_heart_rate := pyRound ((75 - fitness_level * 15) + 5 * z_hr)
    cholesterol :=
      ⟨gen_cholesterol_total p z_chol, gen_hdl p z_chol z_hdl, gen_ldl p z_chol z_hdl z_ldl⟩
    fasting_glucose := gen_glucose p z_glu
    hba1c := rnd1 (5 + (gen_glucose p z_glu - 85) * (1/50) + (3/10) * z_hba)
    vo2_max := rnd1 ((if p.gender = "Male" then 45 else 35) - max 0 (p.age - 20) * (3/10)
      + fitness_level * 15 + 5 * z_vo2)
    body_fat_percentage :=
      rnd1 (if p.gender = "Male" then 15 + max 0 (p.bmi - 22) * (3/2) + 3 * z_fat
        else 25 + max 0 (p.bmi - 22) * (13/10) + 3 * z_fat)
    measured_at := now }

/-! ## Predicates used by the claims -/

/-- The hypothesis of claim C2: every genetic risk input lies in `[0, 1]`
(the generator clamps them so, data_generator.py lines 410-416). -/
def genetic_inputs_in_unit (rf : RiskFactors) : Prop :=
  0 ≤ rf.cardiovascular_disease ∧ rf.cardiovascular_disease ≤ 1
  ∧ 0 ≤ rf.type_2_diabetes ∧ rf.type_2_diabetes ≤ 1
  ∧ 0 ≤ rf.cancer.colorectal ∧ rf.cancer.colorectal ≤ 1
  ∧ 0 ≤ rf.cancer.breast ∧ rf.cancer.breast ≤ 1
  ∧ 0 ≤ rf.cancer.prostate ∧ rf.cancer.prostate ≤ 1
  ∧ 0 ≤ rf.cancer.lung ∧ rf.cancer.lung ≤ 1
  ∧ 0 ≤ rf.cancer.skin ∧ rf.cancer.skin ≤ 1
  ∧ 0 ≤ rf.neurodegenerative.alzheimers ∧ rf.neurodegenerative.alzheimers ≤ 1
  ∧ 0 ≤ rf.neurodegenerative.parkinsons ∧ rf.neurodegenerative.parkinsons ≤ 1

/-- The hypothesis of claim C10: every categorical string field consumed via a
defaulted lookup in `predict_life_expectancy` falls outside its lookup-table
vocabulary after lowercasing. -/
def unrecognized_categoricals (u : UserData) : Prop :=
  pyLower u.user_profile.smoking_status ≠ "never"
  ∧ pyLower u.user_profile.smoking_status ≠ "former"
  ∧ pyLower u.user_profile.smoking_status ≠ "current"
  ∧ pyLower u.user_profile.alcohol_frequency ≠ "none"
  ∧ pyLower u.user_profile.alcohol_frequency ≠ "rare"
  ∧ pyLower u.user_profile.alcohol_frequency ≠ "moderate"
  ∧ pyLower u.user_profile.alcohol_frequency ≠ "frequent"
  ∧ pyLower u.lifestyle_data.stress_level ≠ "low"
  ∧ pyLower u.lifestyle_data.stress_level ≠ "moderate"
  ∧ pyLower u.lifestyle_data.stress_level ≠ "high"
  ∧ pyLower u.lifestyle_data.stress_level ≠ "very_high"
  ∧ pyLower u.lifestyle_data.sleep.quality ≠ "poor"
  ∧ pyLower u.lifestyle_data.sleep.quality ≠ "fair"
  ∧ pyLower u.lifestyle_data.sleep.quality ≠ "good"
  ∧ pyLower u.lifestyle_data.sleep.quality ≠ "excellent"
  ∧ pyLower u.lifestyle_data.diet.processed_food_frequency ≠ "rarely"
  ∧ pyLower u.lifestyle_data.diet.processed_food_frequency ≠ "sometimes"
  ∧ pyLower u.lifestyle_data.diet.processed_food_frequency ≠ "often"
  ∧ pyLower u.lifestyle_data.diet.processed_food_frequency ≠ "very_frequently"

/-! ## Concrete records used as witnesses and counterexamples -/

/-- A concrete user profile (male, 30 years, BMI 22, never-smoker). -/
def sampleProfile : UserProfile :=
  { user_id := "user_0001", gender := "Male", age := 30, height_cm := 175,
    weight_kg := 67, bmi := 22, smoking_status := "Never", alcohol_frequency := "None",
    family_history := ⟨false, false, false, false⟩, created_at := "t0" }

/-- Concrete health metrics whose only non-neutral scoring input is the
cholesterol pair total 240 / HDL 35 (quotient 48/7). -/
def sampleMetrics : HealthMetrics :=
  { user_id := "user_0001", blood_pressure := ⟨110, 70⟩, resting_heart_rate := 65,
    cholesterol := ⟨240, 35, 170⟩, fasting_glucose := 85, hba1c := 5, vo2_max := 45,
    body_fat_percentage := 15, measured_at := "t0" }

/-- Concrete lifestyle data that contributes no life-expectancy adjustment. -/
def sampleLifestyle : LifestyleData :=
  { exercise := ⟨"Sedentary", 0, []⟩, sleep := ⟨15/2, "Good"⟩,
    diet := ⟨"Standard", 0, "Rarely"⟩, stress_level := "Moderate" }

/-- Concrete genetic data with all risk probabilities zero. -/
def sampleGenetics : GeneticData := ⟨⟨0, 0, ⟨0, 0, 0, 0, 0⟩, ⟨0, 0⟩, ⟨0, 0⟩⟩⟩

/-- A concrete input record on which every life-expectancy adjustment except
the cholesterol term vanishes. -/
def uC1 : UserData :=
  { user_profile := sampleProfile, health_metrics := sampleMetrics,
    impedance_data := ⟨30⟩, lifestyle_data := sampleLifestyle,
    genetic_data := sampleGenetics }

/-- A concrete prediction record. -/
def samplePrediction : Prediction :=
  { user_id := "user_0001", current_age := 30, gender := "Male",
    base_life_expectancy := 761/10, predicted_life_expectancy := 727/10,
    confidence_interval := (685/10, 769/10), expected_remaining_years := 427/10,
    factors := [], predicted_at := "t0" }

/-- A concrete risk entry. -/
def sampleRiskEntry : RiskEntry := ⟨0, "Low", []⟩

/-- A concrete risk assessment with all categories Low. -/
def sampleRisks : RiskAssessment :=
  ⟨"user_0001", ⟨sampleRiskEntry, sampleRiskEntry, sampleRiskEntry, sampleRiskEntry⟩, "t0"⟩

/-- A current smoker whose resting heart rate 55 is already below the
mutator's floor of 60. -/
def uC6 : UserData :=
  { uC1 with
    user_profile := { sampleProfile with smoking_status := "Current" }
    health_metrics := { sampleMetrics with resting_heart_rate := 55 } }

/-- A record whose smoking status is the string "CURRENT" (different from
"Current" but lowercasing to "current"). -/
def uC6b : UserData :=
  { uC1 with user_profile := { sampleProfile with smoking_status := "CURRENT" } }

/-- A current smoker with resting heart rate 72 (above the floor of 60). -/
def uC6w : UserData :=
  { uC1 with
    user_profile := { sampleProfile with smoking_status := "Current" }
    health_metrics := { sampleMetrics with resting_heart_rate := 72 } }

/-- A profile whose categorical fields are outside every vocabulary. -/
def weirdProfile : UserProfile :=
  { sampleProfile with smoking_status := "Nevr", alcohol_frequency := "Occasionally" }

/-- Lifestyle data whose categorical fields are outside every vocabulary. -/
def weirdLifestyle : LifestyleData :=
  { sampleLifestyle with
    sleep := ⟨15/2, "Amazing"⟩
    diet := ⟨"Standard", 0, "Daily"⟩
    stress_level := "Extreme" }

/-- A record with out-of-vocabulary categoricals AND a zero HDL value. -/
def uC10 : UserData :=
  { uC1 with
    user_profile := weirdProfile
    health_metrics := { sampleMetrics with cholesterol := ⟨240, 0, 170⟩ }
    lifestyle_data := weirdLifestyle }

/-- A record with out-of-vocabulary categoricals and a nonzero HDL value. -/
def uC10w : UserData :=
  { uC1 with
    user_profile := weirdProfile
    lifestyle_data := weirdLifestyle }

/-- A concrete recommendations mapping mixing priorities across categories. -/
def sampleRecs : Recommendations :=
  { exercise := [⟨"High", "ex1", "i1"⟩, ⟨"Low", "ex2", "i2"⟩]
    nutrition := [⟨"Very High", "nu1", "i3"⟩]
    sleep := []
    stress_management := [⟨"Medium", "st1", "i4"⟩]
    health_monitoring := [⟨"High", "hm1", "i5"⟩]
    lifestyle := [⟨"Very High", "li1", "i6"⟩] }

/-! ## General rounding lemmas -/

theorem rndE_ge (x : ℚ) (c : ℤ) (h : (c:ℚ) ≤ x) : c ≤ rndE x := by
  have hf : c ≤ ⌊x⌋ := Int.le_floor.mpr h
  unfold rndE
  split
  · exact hf
  · split
    · omega
    · split <;> omega

theorem rndE_le (x : ℚ) (c : ℤ) (h : x ≤ (c:ℚ)) : rndE x ≤ c := by
  have hf : ⌊x⌋ ≤ c := by simpa using Int.floor_le_floor h
  unfold rndE
  split
  · exact hf
  · rename_i h1
    have hne : ⌊x⌋ < c := by
      rcases eq_or_lt_of_le hf with h' | h'
      · exfalso
        have hx1 : x ≤ (⌊x⌋:ℚ) := by rw [h']; exact_mod_cast h
        have hx2 := Int.floor_le x
        have : x - ⌊x⌋ < 1/2 := by linarith
        exact h1 this
      · exact h'
    split
    · omega
    · split <;> omega

theorem rnd1_ge (x : ℚ) (c : ℤ) (h : (c:ℚ) ≤ x) : (c:ℚ) ≤ rnd1 x := by
  unfold rnd1
  rw [le_div_iff₀ (by norm_num)]
  have h2 : (10*c) ≤ rndE (10*x) := by
    apply rndE_ge
    push_cast
    linarith
  calc (c:ℚ) * 10 = ((10*c : ℤ) : ℚ) := by push_cast; ring
    _ ≤ _ := by exact_mod_cast h2

theorem rnd2_ge (x : ℚ) (c : ℤ) (h : (c:ℚ) ≤ x) : (c:ℚ) ≤ rnd2 x := by
  unfold rnd2
  rw [le_div_iff₀ (by norm_num)]
  have h2 : (100*c) ≤ rndE (100*x) := by
    apply rndE_ge
    push_cast
    linarith
  calc (c:ℚ) * 100 = ((100*c : ℤ) : ℚ) := by push_cast; ring
    _ ≤ _ := by exact_mod_cast h2

theorem rnd2_le (x : ℚ) (c : ℤ) (h : x ≤ (c:ℚ)) : rnd2 x ≤ (c:ℚ) := by
  unfold rnd2
  rw [div_le_iff₀ (by norm_num)]
  have h2 : rndE (100*x) ≤ 100*c := by
    apply rndE_le
    push_cast
    linarith
  calc ((rndE (100*x) : ℚ)) ≤ ((100*c : ℤ) : ℚ) := by exact_mod_cast h2
    _ = (c:ℚ) * 100 := by push_cast; ring

theorem rndE_intCast (k : ℤ) : rndE (k : ℚ) = k := by
  unfold rndE
  norm_num

/-! ## Claim C3 -/

/-- Claim C3: `categorize_risk` is a pure step function with exactly the cut
points 0.15, 0.35, 0.60: `x < 0.15` yields "Low", `0.15 ≤ x < 0.35` yields
"Moderate", `0.35 ≤ x < 0.60` yields "High", `x ≥ 0.60` yields "Very High",
and an input exactly at a cut point belongs to the higher category. -/
theorem C3_categorize_risk_step (x : ℚ) :
    (categorize_risk x = "Low" ↔ x < 3/20)
    ∧ (categorize_risk x = "Moderate" ↔ 3/20 ≤ x ∧ x < 7/20)
    ∧ (categorize_risk x = "High" ↔ 7/20 ≤ x ∧ x < 3/5)
    ∧ (categorize_risk x = "Very High" ↔ 3/5 ≤ x)
    ∧ categorize_risk (3/20) = "Moderate"
    ∧ categorize_risk (7/20) = "High"
    ∧ categorize_risk (3/5) = "Very High" := by
  have e1 : ∀ y : ℚ, y < 3/20 → categorize_risk y = "Low" := by
    intro y hy; unfold categorize_risk; rw [if_pos hy]
  have e2 : ∀ y : ℚ, 3/20 ≤ y → y < 7/20 → categorize_risk y = "Moderate" := by
    intro y hy1 hy2; unfold categorize_risk; rw [if_neg (by linarith), if_pos hy2]
  have e3 : ∀ y : ℚ, 7/20 ≤ y → y < 3/5 → categorize_risk y = "High" := by
    intro y hy1 hy2
    unfold categorize_risk
    rw [if_neg (by linarith), if_neg (by linarith), if_pos hy2]
  have e4 : ∀ y : ℚ, 3/5 ≤ y → categorize_risk y = "Very High" := by
    intro y hy
    unfold categorize_risk
    rw [if_neg (by linarith), if_neg (by linarith), if_neg (by linarith)]
  refine ⟨⟨fun h => ?_, e1 x⟩, ⟨fun h => ?_, fun hh => e2 x hh.1 hh.2⟩,
    ⟨fun h => ?_, fun hh => e3 x hh.1 hh.2⟩, ⟨fun h => ?_, e4 x⟩,
    e2 _ (by norm_num) (by norm_num), e3 _ (by norm_num) (by norm_num), e4 _ (by norm_num)⟩
  · by_contra hc
    push_neg at hc
    rcases lt_or_le x (7/20) with h2 | h2
    · rw [e2 x hc h2] at h; simp at h
    · rcases lt_or_le x (3/5) with h3 | h3
      · rw [e3 x h2 h3] at h; simp at h
      · rw [e4 x h3] at h; simp at h
  · constructor
    · by_contra hc
      push_neg at hc
      rw [e1 x hc] at h; simp at h
    · by_contra hc
      push_neg at hc
      rcases lt_or_le x (3/5) with h3 | h3
      · rw [e3 x hc h3] at h; simp at h
      · rw [e4 x h3] at h; simp at h
  · constructor
    · by_contra hc
      push_neg at hc
      rcases lt_or_le x (3/20) with h1 | h1
      · rw [e1 x h1] at h; simp at h
      · rw [e2 x h1 hc] at h; simp at h
    · by_contra hc
      push_neg at hc
      rw [e4 x hc] at h; simp at h
  · by_contra hc
    push_neg at hc
    rcases lt_or_le x (3/20) with h1 | h1
    · rw [e1 x h1] at h; simp at h
    · rcases lt_or_le x (7/20) with h2 | h2
      · rw [e2 x h1 h2] at h; simp at h
      · rw [e3 x h2 hc] at h; simp at h

/-! ## Claim C4 -/

/-- Claim C4: `run_complete_analysis` is a total function on input records: it
returns a result for every input; on success the result has status "success"
with all four analysis sections present, and on any pipeline failure it has
status "error" together with an error message. -/
theorem C4_run_complete_analysis_status (now : String) (u : UserData) :
    ((run_complete_analysis now u).status = "success"
      ∧ ((run_complete_analysis now u).life_expectancy).isSome = true
      ∧ ((run_complete_analysis now u).biological_age).isSome = true
      ∧ ((run_complete_analysis now u).health_risks).isSome = true
      ∧ ((run_complete_analysis now u).recommendations).isSome = true
      ∧ (run_complete_analysis now u).error_message = none)
    ∨ ((run_complete_analysis now u).status = "error"
      ∧ ((run_complete_analysis now u).error_message).isSome = true) := by
  unfold run_complete_analysis
  cases predict_life_expectancy now u with
  | error e => right; simp [error_result]
  | ok le =>
    cases calculate_biological_age now u with
    | error e => right; simp [error_result]
    | ok ba =>
      cases calculate_health_risks now u with
      | error e => right; simp [error_result]
      | ok hr => left; simp

/-! ## Claim C9 -/

/-- Claim C9: the impact estimator computes
`potential_years_gained = min(0.8 * n, 8.0)` where `n` is the number of
High / Very High recommendations across all categories; the value depends only
on that count. -/
theorem C9_estimate_impact_years_gained (m : Recommendations) (p : Prediction) :
    (estimate_impact_on_life_expectancy m p).potential_years_gained
      = min ((high_priority_count m : ℚ) * (4/5)) 8 := by
  unfold estimate_impact_on_life_expectancy
  rcases le_total ((high_priority_count m : ℚ) * (4/5)) 8 with h | h
  · rw [min_eq_left h]
    unfold rnd1
    have hc : 10 * ((high_priority_count m : ℚ) * (4/5)) = ((8 * (high_priority_count m) : ℤ) : ℚ) := by
      push_cast; ring
    rw [hc, rndE_intCast]
    push_cast; ring
  · rw [min_eq_right h]
    unfold rnd1
    have hc : (10 : ℚ) * 8 = ((80 : ℤ) : ℚ) := by norm_num
    rw [hc, rndE_intCast]
    norm_num

/-! ## Claim C2 -/

theorem bp_risk_factor_nonneg (hm : HealthMetrics) : 0 ≤ bp_risk_factor hm := by
  unfold bp_risk_factor; split_ifs <;> norm_num

theorem chol_risk_factor_of_nonneg (r : ℚ) : 0 ≤ chol_risk_factor_of r := by
  unfold chol_risk_factor_of; split_ifs <;> norm_num

theorem smoking_risk_factor_nonneg (p : UserProfile) : 0 ≤ smoking_risk_factor p := by
  unfold smoking_risk_factor; split_ifs <;> norm_num

theorem exercise_risk_factor_nonneg (l : LifestyleData) : 0 ≤ exercise_risk_factor l := by
  unfold exercise_risk_factor; split_ifs <;> norm_num

theorem bmi_cv_risk_factor_nonneg (p : UserProfile) : 0 ≤ bmi_cv_risk_factor p := by
  unfold bmi_cv_risk_factor; split_ifs <;> norm_num

theorem glucose_risk_factor_nonneg (hm : HealthMetrics) : 0 ≤ glucose_risk_factor hm := by
  unfold glucose_risk_factor; split_ifs <;> norm_num

theorem bmi_metabolic_risk_factor_nonneg (p : UserProfile) :
    0 ≤ bmi_metabolic_risk_factor p := by
  unfold bmi_metabolic_risk_factor; split_ifs <;> norm_num

theorem diet_metabolic_risk_factor_nonneg (l : LifestyleData) :
    0 ≤ diet_metabolic_risk_factor l := by
  unfold diet_metabolic_risk_factor; split_ifs <;> norm_num

theorem sleep_risk_factor_nonneg (l : LifestyleData) : 0 ≤ sleep_risk_factor l := by
  unfold sleep_risk_factor; split_ifs <;> norm_num

theorem stress_risk_factor_nonneg (l : LifestyleData) : 0 ≤ stress_risk_factor l := by
  unfold stress_risk_factor; split_ifs <;> norm_num

theorem diet_neuro_risk_factor_nonneg (l : LifestyleData) : 0 ≤ diet_neuro_risk_factor l :=
  le_max_left 0 _

theorem smoking_cancer_risk_factor_nonneg (p : UserProfile) :
    0 ≤ smoking_cancer_risk_factor p := by
  unfold smoking_cancer_risk_factor; split_ifs <;> norm_num

theorem exercise_cancer_risk_factor_nonneg (l : LifestyleData) :
    0 ≤ exercise_cancer_risk_factor l := by
  unfold exercise_cancer_risk_factor; split_ifs <;> norm_num

theorem diet_cancer_risk_factor_nonneg (l : LifestyleData) :
    0 ≤ diet_cancer_risk_factor l := by
  unfold diet_cancer_risk_factor; split_ifs <;> norm_num

/-- Claim C2: whenever `calculate_biological_age` returns, the reported
biological age is at least 20; and whenever `calculate_health_risks` returns,
each of the four disease categories has a risk level in `[0, 1]`, assuming the
genetic risk inputs lie in `[0, 1]`. -/
theorem C2_bio_age_floor_and_risk_clamp (now : String) (u : UserData)
    (hg : genetic_inputs_in_unit u.genetic_data.risk_factors) :
    (∀ ba, calculate_biological_age now u = .ok ba → (20:ℚ) ≤ ba.biological_age)
    ∧ (∀ ra, calculate_health_risks now u = .ok ra →
        (0 ≤ ra.risks.cardiovascular.risk_level ∧ ra.risks.cardiovascular.risk_level ≤ 1)
        ∧ (0 ≤ ra.risks.metabolic.risk_level ∧ ra.risks.metabolic.risk_level ≤ 1)
        ∧ (0 ≤ ra.risks.neurological.risk_level ∧ ra.risks.neurological.risk_level ≤ 1)
        ∧ (0 ≤ ra.risks.cancer.risk_level ∧ ra.risks.cancer.risk_level ≤ 1)) := by
  obtain ⟨g1, g2, g3, g4, g5, g6, g7, g8, g9, g10, g11, g12, g13, g14, g15, g16, g17, g18⟩ := hg
  constructor
  · intro ba hba
    unfold calculate_biological_age at hba
    split at hba
    · simp at hba
    · rename_i r heq
      simp only [Except.ok.injEq] at hba
      subst hba
      show (20:ℚ) ≤ rnd1 (max 20 (biological_age_raw u r))
      have h20 : ((20:ℤ):ℚ) ≤ max 20 (biological_age_raw u r) := by
        push_cast
        exact le_max_left _ _
      simpa using rnd1_ge _ 20 h20
  · intro ra hra
    unfold calculate_health_risks at hra
    split at hra
    · simp at hra
    · rename_i r heq
      simp only [Except.ok.injEq] at hra
      subst hra
      have n1 := bp_risk_factor_nonneg u.health_metrics
      have n2 := chol_risk_factor_of_nonneg r
      have n3 := smoking_risk_factor_nonneg u.user_profile
      have n4 := exercise_risk_factor_nonneg u.lifestyle_data
      have n5 := bmi_cv_risk_factor_nonneg u.user_profile
      have n6 := glucose_risk_factor_nonneg u.health_metrics
      have n7 := bmi_metabolic_risk_factor_nonneg u.user_profile
      have n8 := diet_metabolic_risk_factor_nonneg u.lifestyle_data
      have n9 := sleep_risk_factor_nonneg u.lifestyle_data
      have n10 := stress_risk_factor_nonneg u.lifestyle_data
      have n11 := diet_neuro_risk_factor_nonneg u.lifestyle_data
      have n12 := smoking_cancer_risk_factor_nonneg u.user_profile
      have n13 := exercise_cancer_risk_factor_nonneg u.lifestyle_data
      have n14 := diet_cancer_risk_factor_nonneg u.lifestyle_data
      refine ⟨⟨?_, ?_⟩, ⟨?_, ?_⟩, ⟨?_, ?_⟩, ⟨?_, ?_⟩⟩
      · show (0:ℚ) ≤ rnd2 (cardiovascular_risk u r)
        have hmin : (0:ℚ) ≤ cardiovascular_risk u r := by
          unfold cardiovascular_risk
          refine le_min (by norm_num) (div_nonneg ?_ (by norm_num))
          linarith
        simpa using rnd2_ge _ 0 (by exact_mod_cast hmin)
      · show rnd2 (cardiovascular_risk u r) ≤ (1:ℚ)
        have hmax : cardiovascular_risk u r ≤ 1 := min_le_left _ _
        simpa using rnd2_le _ 1 (by exact_mod_cast hmax)
      · show (0:ℚ) ≤ rnd2 (metabolic_risk u)
        have hmin : (0:ℚ) ≤ metabolic_risk u := by
          unfold metabolic_risk
          refine le_min (by norm_num) (div_nonneg ?_ (by norm_num))
          linarith
        simpa using rnd2_ge _ 0 (by exact_mod_cast hmin)
      · show rnd2 (metabolic_risk u) ≤ (1:ℚ)
        have hmax : metabolic_risk u ≤ 1 := min_le_left _ _
        simpa using rnd2_le _ 1 (by exact_mod_cast hmax)
      · show (0:ℚ) ≤ rnd2 (neurological_risk u)
        have hng : (0:ℚ) ≤ neuro_genetic_risk u.genetic_data.risk_factors := by
          unfold neuro_genetic_risk
          have := g15
          have := g17
          positivity
        have hmin : (0:ℚ) ≤ neurological_risk u := by
          unfold neurological_risk
          refine le_min (by norm_num) (div_nonneg ?_ (by norm_num))
          linarith
        simpa using rnd2_ge _ 0 (by exact_mod_cast hmin)
      · show rnd2 (neurological_risk u) ≤ (1:ℚ)
        have hmax : neurological_risk u ≤ 1 := min_le_left _ _
        simpa using rnd2_le _ 1 (by exact_mod_cast hmax)
      · show (0:ℚ) ≤ rnd2 (cancer_risk u)
        have hca : (0:ℚ) ≤ cancerAvg u.genetic_data.risk_factors.cancer := by
          unfold cancerAvg
          have := g5
          have := g7
          have := g9
          have := g11
          have := g13
          positivity
        have hmin : (0:ℚ) ≤ cancer_risk u := by
          unfold cancer_risk
          refine le_min (by norm_num) (div_nonneg ?_ (by norm_num))
          linarith
        simpa using rnd2_ge _ 0 (by exact_mod_cast hmin)
      · show rnd2 (cancer_risk u) ≤ (1:ℚ)
        have hmax : cancer_risk u ≤ 1 := min_le_left _ _
        simpa using rnd2_le _ 1 (by exact_mod_cast hmax)

/-- Witness for claim C2 at the concrete record `uC1`. -/
theorem C2_witness :
    genetic_inputs_in_unit uC1.genetic_data.risk_factors
    ∧ ((∀ ba, calculate_biological_age "t" uC1 = .ok ba → (20:ℚ) ≤ ba.biological_age)
      ∧ (∀ ra, calculate_health_risks "t" uC1 = .ok ra →
          (0 ≤ ra.risks.cardiovascular.risk_level ∧ ra.risks.cardiovascular.risk_level ≤ 1)
          ∧ (0 ≤ ra.risks.metabolic.risk_level ∧ ra.risks.metabolic.risk_level ≤ 1)
          ∧ (0 ≤ ra.risks.neurological.risk_level ∧ ra.risks.neurological.risk_level ≤ 1)
          ∧ (0 ≤ ra.risks.cancer.risk_level ∧ ra.risks.cancer.risk_level ≤ 1))) := by
  have hg : genetic_inputs_in_unit uC1.genetic_data.risk_factors := by
    simp [genetic_inputs_in_unit, uC1, sampleGenetics]
  exact ⟨hg, C2_bio_age_floor_and_risk_clamp "t" uC1 hg⟩

/-! ## Claim C8 -/

theorem sort_key_le_one (t : TopRecommendation) : sort_key t ≤ 1 := by
  unfold sort_key; split_ifs <;> omega

theorem insert_by_key_front (a : TopRecommendation) (l : List TopRecommendation)
    (h : sort_key a = 0) : insert_by_key a l = a :: l := by
  cases l with
  | nil => rfl
  | cons b t =>
    unfold insert_by_key
    rw [if_pos (by omega)]

theorem insert_by_key_append (a : TopRecommendation) (l0 l1 : List TopRecommendation)
    (ha : sort_key a ≠ 0) (h0 : ∀ b ∈ l0, sort_key b = 0)
    (h1 : ∀ b ∈ l1, sort_key b ≠ 0) :
    insert_by_key a (l0 ++ l1) = l0 ++ a :: l1 := by
  induction l0 with
  | nil =>
    simp only [List.nil_append]
    cases l1 with
    | nil => rfl
    | cons c t =>
      unfold insert_by_key
      rw [if_pos]
      have hc := h1 c (by simp)
      have ha1 := sort_key_le_one a
      have hc1 := sort_key_le_one c
      omega
  | cons c t ih =>
    have hc := h0 c (by simp)
    simp only [List.cons_append]
    unfold insert_by_key
    rw [if_neg (by omega)]
    rw [ih (fun b hb => h0 b (by simp [hb]))]

theorem py_stable_sort_fibers (l : List TopRecommendation) :
    py_stable_sort l
      = l.filter (fun t => sort_key t == 0) ++ l.filter (fun t => sort_key t != 0) := by
  induction l with
  | nil => rfl
  | cons a l ih =>
    show insert_by_key a (py_stable_sort l) = _
    rw [ih]
    by_cases ha : sort_key a = 0
    · rw [insert_by_key_front a _ ha]
      rw [List.filter_cons_of_pos (by simp [ha]), List.filter_cons_of_neg (by simp [ha])]
      simp
    · have h0 : ∀ b ∈ l.filter (fun t => sort_key t == 0), sort_key b = 0 := by
        intro b hb
        simpa using (List.mem_filter.mp hb).2
      have h1 : ∀ b ∈ l.filter (fun t => sort_key t != 0), sort_key b ≠ 0 := by
        intro b hb
        simpa using (List.mem_filter.mp hb).2
      rw [insert_by_key_append a _ _ ha h0 h1]
      rw [List.filter_cons_of_neg (by simp [ha]), List.filter_cons_of_pos (by simp [ha])]

theorem collect_high_priority_mem (m : Recommendations) :
    ∀ t ∈ collect_high_priority m, t.priority = "High" ∨ t.priority = "Very High" := by
  intro t ht
  simp only [collect_high_priority, tag_category, List.mem_append, List.mem_map,
    List.mem_filter, is_high_priority] at ht
  rcases ht with ((((h | h) | h) | h) | h) | h <;>
    · obtain ⟨r, ⟨-, hr⟩, rfl⟩ := h
      simpa using hr

/-- Claim C8: `extract_high_priority_recommendations` flattens the per-category
lists, keeps exactly the High / Very High entries, and returns every Very High
entry before every High entry while entries of equal priority keep their
original encounter order: the result is the Very High fiber of the flattened
filtered list followed by its High fiber, each in encounter order. -/
theorem C8_extract_top_priorities_stable (m : Recommendations) :
    extract_high_priority_recommendations m
      = (collect_high_priority m).filter (fun t => t.priority == "Very High")
        ++ (collect_high_priority m).filter (fun t => t.priority == "High")
    ∧ ∀ t ∈ collect_high_priority m, t.priority = "High" ∨ t.priority = "Very High" := by
  refine ⟨?_, collect_high_priority_mem m⟩
  unfold extract_high_priority_recommendations
  rw [py_stable_sort_fibers]
  congr 1
  · refine List.filter_congr ?_
    intro t ht
    unfold sort_key
    split_ifs with h <;> simp [h]
  · refine List.filter_congr ?_
    intro t ht
    rcases collect_high_priority_mem m t ht with h | h <;> simp [sort_key, h]

/-- Witness for claim C8 at the concrete recommendation mapping `sampleRecs`. -/
theorem C8_witness :
    extract_high_priority_recommendations sampleRecs
      = (collect_high_priority sampleRecs).filter (fun t => t.priority == "Very High")
        ++ (collect_high_priority sampleRecs).filter (fun t => t.priority == "High")
    ∧ ∀ t ∈ collect_high_priority sampleRecs,
        t.priority = "High" ∨ t.priority = "Very High" :=
  C8_extract_top_priorities_stable sampleRecs

/-! ## Claim C5 -/

/-- Counterexample to claim C5 as stated: two calls of
`generate_recommendations` on the same record, prediction and risk assessment
are NOT byte-identical, because the output embeds the call-time
`datetime.now().isoformat()` timestamp in its `generated_at` field; at two
distinct clock instants the outputs differ. -/
theorem C5_counterexample :
    generate_recommendations "2025-01-01T00:00:00" uC1 samplePrediction sampleRisks
      ≠ generate_recommendations "2025-01-01T00:00:01" uC1 samplePrediction sampleRisks := by
  intro h
  have h2 := congrArg RecommendationsResult.generated_at h
  simp [generate_recommendations] at h2

/-- Claim C5 (amended): recommendation generation is deterministic up to the
embedded timestamp: for a fixed user record, prediction and risk assessment,
every output field except `generated_at` is independent of the ambient clock,
and `generated_at` records exactly the clock value of the call. -/
theorem C5_recommendations_deterministic (now1 now2 : String) (u : UserData)
    (p : Prediction) (r : RiskAssessment) :
    (generate_recommendations now1 u p r).user_id
      = (generate_recommendations now2 u p r).user_id
    ∧ (generate_recommendations now1 u p r).recommendations
      = (generate_recommendations now2 u p r).recommendations
    ∧ (generate_recommendations now1 u p r).top_priorities
      = (generate_recommendations now2 u p r).top_priorities
    ∧ (generate_recommendations now1 u p r).potential_impact
      = (generate_recommendations now2 u p r).potential_impact
    ∧ (generate_recommendations now1 u p r).generated_at = now1 :=
  ⟨rfl, rfl, rfl, rfl, rfl⟩

/-! ## Claim C6 -/

/-- Claim C6 (amended): on a record whose smoking status lowercases to
"current", the quit-smoking mutator sets the status to "Former", increases
`vo2_max` strictly, and sets the resting heart rate to
`max 60 (heart rate - reduction)`: the heart rate strictly decreases exactly
when the original exceeds the floor 60, and is set to 60 otherwise (it can
increase). On a record whose smoking status does not lowercase to "current"
the mutator is the identity. -/
theorem C6_quit_smoking_amended (u : UserData) (r_hr r_sys r_dia r_vo2 r_chol : ℚ)
    (h1 : 5 ≤ r_hr) (h2 : r_hr ≤ 12) (h3 : 5 ≤ r_sys) (h4 : r_sys ≤ 12)
    (h5 : 3 ≤ r_dia) (h6 : r_dia ≤ 8) (h7 : 5 ≤ r_vo2) (h8 : r_vo2 ≤ 15)
    (h9 : 1/20 ≤ r_chol) (h10 : r_chol ≤ 1/10) :
    (pyLower u.user_profile.smoking_status = "current" →
      (apply_quit_smoking_scenario u r_hr r_sys r_dia r_vo2 r_chol).user_profile.smoking_status
        = "Former"
      ∧ (apply_quit_smoking_scenario u r_hr r_sys r_dia r_vo2 r_chol).health_metrics.resting_heart_rate
        = max 60 (u.health_metrics.resting_heart_rate - r_hr)
      ∧ (60 < u.health_metrics.resting_heart_rate →
          (apply_quit_smoking_scenario u r_hr r_sys r_dia r_vo2 r_chol).health_metrics.resting_heart_rate
            < u.health_metrics.resting_heart_rate)
      ∧ (u.health_metrics.resting_heart_rate ≤ 60 →
          (apply_quit_smoking_scenario u r_hr r_sys r_dia r_vo2 r_chol).health_metrics.resting_heart_rate
            = 60)
      ∧ u.health_metrics.vo2_max
        < (apply_quit_smoking_scenario u r_hr r_sys r_dia r_vo2 r_chol).health_metrics.vo2_max)
    ∧ (pyLower u.user_profile.smoking_status ≠ "current" →
        apply_quit_smoking_scenario u r_hr r_sys r_dia r_vo2 r_chol = u) := by
  constructor
  · intro hc
    unfold apply_quit_smoking_scenario
    rw [if_neg (by simp [hc])]
    refine ⟨rfl, rfl, ?_, ?_, ?_⟩
    · intro h60
      show max 60 (u.health_metrics.resting_heart_rate - r_hr)
        < u.health_metrics.resting_heart_rate
      exact max_lt h60 (by linarith)
    · intro h60
      show max 60 (u.health_metrics.resting_heart_rate - r_hr) = 60
      exact max_eq_left (by linarith)
    · show u.health_metrics.vo2_max < u.health_metrics.vo2_max + r_vo2
      linarith
  · intro hnc
    unfold apply_quit_smoking_scenario
    rw [if_pos hnc]

/-- Counterexample to claim C6 as stated: on the current smoker `uC6` with
resting heart rate 55, the mutator sets the heart rate to the floor 60, which
is NOT strictly less than the original; and the record `uC6b` whose smoking
status is the string "CURRENT" (not equal to "Current") is nevertheless
mutated, so the no-op condition is not `smoking_status ≠ "Current"`. -/
theorem C6_counterexample :
    uC6.user_profile.smoking_status = "Current"
    ∧ uC6.health_metrics.resting_heart_rate = 55
    ∧ ((5:ℚ) ≤ 6 ∧ (6:ℚ) ≤ 12)
    ∧ (apply_quit_smoking_scenario uC6 6 6 4 7 (1/20)).health_metrics.resting_heart_rate = 60
    ∧ ¬ ((apply_quit_smoking_scenario uC6 6 6 4 7 (1/20)).health_metrics.resting_heart_rate
        < uC6.health_metrics.resting_heart_rate)
    ∧ uC6b.user_profile.smoking_status ≠ "Current"
    ∧ apply_quit_smoking_scenario uC6b 6 6 4 7 (1/20) ≠ uC6b := by
  have hpl : pyLower "Current" = "current" := by decide
  have hpl2 : pyLower "CURRENT" = "current" := by decide
  refine ⟨rfl, rfl, by norm_num, ?_, ?_, by decide, ?_⟩
  · norm_num [apply_quit_smoking_scenario, uC6, uC1, sampleProfile, sampleMetrics, hpl,
      max_def]
  · norm_num [apply_quit_smoking_scenario, uC6, uC1, sampleProfile, sampleMetrics, hpl,
      max_def]
  · intro h
    have h2 := congrArg (fun d => d.user_profile.smoking_status) h
    simp [apply_quit_smoking_scenario, uC6b, uC1, sampleProfile, hpl2] at h2

/-- Witness for claim C6 at the concrete current-smoker record `uC6w` (resting
heart rate 72) with concrete in-range draws. -/
theorem C6_witness :
    ((5:ℚ) ≤ 6 ∧ (6:ℚ) ≤ 12 ∧ (5:ℚ) ≤ 6 ∧ (6:ℚ) ≤ 12 ∧ (3:ℚ) ≤ 4 ∧ (4:ℚ) ≤ 8
      ∧ (5:ℚ) ≤ 7 ∧ (7:ℚ) ≤ 15 ∧ (1:ℚ)/20 ≤ 1/20 ∧ (1:ℚ)/20 ≤ 1/10)
    ∧ ((pyLower uC6w.user_profile.smoking_status = "current" →
        (apply_quit_smoking_scenario uC6w 6 6 4 7 (1/20)).user_profile.smoking_status
          = "Former"
        ∧ (apply_quit_smoking_scenario uC6w 6 6 4 7 (1/20)).health_metrics.resting_heart_rate
          = max 60 (uC6w.health_metrics.resting_heart_rate - 6)
        ∧ (60 < uC6w.health_metrics.resting_heart_rate →
            (apply_quit_smoking_scenario uC6w 6 6 4 7 (1/20)).health_metrics.resting_heart_rate
              < uC6w.health_metrics.resting_heart_rate)
        ∧ (uC6w.health_metrics.resting_heart_rate ≤ 60 →
            (apply_quit_smoking_scenario uC6w 6 6 4 7 (1/20)).health_metrics.resting_heart_rate
              = 60)
        ∧ uC6w.health_metrics.vo2_max
          < (apply_quit_smoking_scenario uC6w 6 6 4 7 (1/20)).health_metrics.vo2_max)
      ∧ (pyLower uC6w.user_profile.smoking_status ≠ "current" →
          apply_quit_smoking_scenario uC6w 6 6 4 7 (1/20) = uC6w)) :=
  ⟨by norm_num,
   C6_quit_smoking_amended uC6w 6 6 4 7 (1/20) (by norm_num) (by norm_num) (by norm_num)
     (by norm_num) (by norm_num) (by norm_num) (by norm_num) (by norm_num) (by norm_num)
     (by norm_num)⟩

/-! ## Claim C1 -/

/-- Counterexample to claim C1 as stated: on the concrete record `uC1` every
adjustment term except the cholesterol term vanishes and the twelve-term sum is
`76.1 - 47/14 = 2546/35`, but the returned `predicted_life_expectancy` is the
value rounded to one decimal, `72.7`, which differs from `base + Σ`. -/
theorem C1_counterexample :
    (predict_life_expectancy "t" uC1).map Prediction.predicted_life_expectancy
      = Except.ok (727/10)
    ∧ base_expectancy uC1
      + (smoking_adj uC1 + bmi_adj uC1 + bp_adj uC1
        + chol_adj_of (uC1.health_metrics.cholesterol.total
            / uC1.health_metrics.cholesterol.hdl)
        + exercise_adj uC1 + diet_adj uC1 + sleep_adj uC1
        + alcohol_adj uC1 + stress_adj uC1 + social_adj uC1
        + genetic_adj uC1 + bio_age_adj uC1) = 2546/35
    ∧ (727/10 : ℚ) ≠ 2546/35 := by
  have hm : pyLower "Male" = "male" := by decide
  have hn : pyLower "Never" = "never" := by decide
  have hs : pyLower "Standard" = "standard" := by decide
  have hra : pyLower "Rarely" = "rarely" := by decide
  have hgo : pyLower "Good" = "good" := by decide
  have hno : pyLower "None" = "none" := by decide
  have hmo : pyLower "Moderate" = "moderate" := by decide
  refine ⟨?_, ?_, by norm_num⟩
  · simp [predict_life_expectancy, pdiv, uC1, sampleProfile,
      sampleMetrics, sampleLifestyle, sampleGenetics, Except.map,
      base_expectancy, total_adjustment,
      adjustments_list, smoking_adj, smokingW, bmi_adj,
      bp_adj, chol_adj_of, exercise_adj, diet_adj,
      processedFoodW, sleep_adj, sleepQualityW, alcohol_adj,
      alcoholW, stress_adj, stressW, social_adj,
      team_activities_count, genetic_adj, cancerAvg, neuroAvg,
      bio_age_adj, hm, hn, hs, hra, hgo, hno, hmo]
    norm_num [rnd1, rndE]
  · simp [uC1, sampleProfile, sampleMetrics, sampleLifestyle,
      sampleGenetics, base_expectancy, smoking_adj, smokingW,
      bmi_adj, bp_adj, chol_adj_of, exercise_adj, diet_adj,
      processedFoodW, sleep_adj, sleepQualityW, alcohol_adj,
      alcoholW, stress_adj, stressW, social_adj,
      team_activities_count, genetic_adj, cancerAvg, neuroAvg,
      bio_age_adj, hm, hn, hs, hra, hgo, hno, hmo]
    norm_num

/-- Claim C1 (amended): for every valid input record (positive HDL), the
returned `predicted_life_expectancy` equals the gender-selected base constant
plus the sum of the twelve documented adjustment terms, ROUNDED TO ONE DECIMAL
PLACE, and the returned factors list records the twelve (label, value) pairs in
the documented computation order. -/
theorem C1_predict_formula (now : String) (u : UserData)
    (h : 0 < u.health_metrics.cholesterol.hdl) :
    ∀ p, predict_life_expectancy now u = .ok p →
      p.predicted_life_expectancy
        = rnd1 (base_expectancy u
          + (smoking_adj u + bmi_adj u + bp_adj u
            + chol_adj_of (u.health_metrics.cholesterol.total
                / u.health_metrics.cholesterol.hdl)
            + exercise_adj u + diet_adj u + sleep_adj u + alcohol_adj u + stress_adj u
            + social_adj u + genetic_adj u + bio_age_adj u))
      ∧ p.factors
        = [("Smoking", smoking_adj u), ("BMI", bmi_adj u), ("Blood Pressure", bp_adj u),
           ("Cholesterol", chol_adj_of (u.health_metrics.cholesterol.total
              / u.health_metrics.cholesterol.hdl)),
           ("Exercise", exercise_adj u), ("Diet", diet_adj u), ("Sleep", sleep_adj u),
           ("Alcohol", alcohol_adj u), ("Stress", stress_adj u),
           ("Social Connection", social_adj u), ("Genetic Factors", genetic_adj u),
           ("Biological Age", bio_age_adj u)] := by
  intro p hp
  have hne : u.health_metrics.cholesterol.hdl ≠ 0 := ne_of_gt h
  unfold predict_life_expectancy at hp
  split at hp
  · simp at hp
  · rename_i r heq
    simp only [Except.ok.injEq] at hp
    subst hp
    unfold pdiv at heq
    rw [if_neg hne] at heq
    simp only [Except.ok.injEq] at heq
    subst heq
    constructor
    · show rnd1 (base_expectancy u + total_adjustment u _) = _
      congr 1
      simp [total_adjustment, adjustments_list]
      ring
    · rfl

/-- Witness for claim C1 at the concrete record `uC1`. -/
theorem C1_witness :
    (0:ℚ) < uC1.health_metrics.cholesterol.hdl
    ∧ ∀ p, predict_life_expectancy "t" uC1 = .ok p →
        p.predicted_life_expectancy
          = rnd1 (base_expectancy uC1
            + (smoking_adj uC1 + bmi_adj uC1 + bp_adj uC1
              + chol_adj_of (uC1.health_metrics.cholesterol.total
                  / uC1.health_metrics.cholesterol.hdl)
              + exercise_adj uC1 + diet_adj uC1 + sleep_adj uC1 + alcohol_adj uC1
              + stress_adj uC1 + social_adj uC1 + genetic_adj uC1 + bio_age_adj uC1))
        ∧ p.factors
          = [("Smoking", smoking_adj uC1), ("BMI", bmi_adj uC1),
             ("Blood Pressure", bp_adj uC1),
             ("Cholesterol", chol_adj_of (uC1.health_metrics.cholesterol.total
                / uC1.health_metrics.cholesterol.hdl)),
             ("Exercise", exercise_adj uC1), ("Diet", diet_adj uC1),
             ("Sleep", sleep_adj uC1), ("Alcohol", alcohol_adj uC1),
             ("Stress", stress_adj uC1), ("Social Connection", social_adj uC1),
             ("Genetic Factors", genetic_adj uC1), ("Biological Age", bio_age_adj uC1)] :=
  ⟨by norm_num [uC1, sampleMetrics],
   C1_predict_formula "t" uC1 (by norm_num [uC1, sampleMetrics])⟩

/-! ## Claim C7 -/

/-- Counterexample to claim C7 as stated: the generator samples HDL from an
unbounded normal distribution and clamps it only from above
(`min(hdl, cholesterol - 50)`), so a sufficiently negative draw produces a
non-positive HDL: with standard-normal draw -6 for HDL, the generated HDL for
the profile `sampleProfile` is -8. -/
theorem C7_counterexample :
    (generate_health_metrics sampleProfile "t" 0 0 0 0 0 (-6) 0 0 0 0 0).cholesterol.hdl
      = -8
    ∧ ¬ (0 < (-8 : ℚ)) := by
  constructor
  · simp [generate_health_metrics, gen_hdl, gen_hdl_raw, gen_cholesterol_total,
      sampleProfile, pyRound, min_def, max_def]
    norm_num [rndE]
  · norm_num

/-- Claim C7 (amended): the generated HDL never exceeds total cholesterol minus
50, and is positive exactly when the normal draw and sampled total allow it:
if the pre-clamp HDL draw is positive and the sampled total cholesterol exceeds
50 then the generated HDL is positive; and on every record with nonzero HDL
the three scoring functions succeed (their only division is by HDL). -/
theorem C7_hdl_positive_amended :
    (∀ (p : UserProfile) (now : String)
        (z_sys z_dia fitness_level z_hr z_chol z_hdl z_ldl z_glu z_hba z_vo2 z_fat : ℚ),
      0 < gen_hdl_raw p z_hdl → 50 < gen_cholesterol_total p z_chol →
      0 < (generate_health_metrics p now z_sys z_dia fitness_level z_hr z_chol z_hdl
            z_ldl z_glu z_hba z_vo2 z_fat).cholesterol.hdl)
    ∧ (∀ (now : String) (u : UserData), u.health_metrics.cholesterol.hdl ≠ 0 →
        (predict_life_expectancy now u).isOk = true
        ∧ (calculate_biological_age now u).isOk = true
        ∧ (calculate_health_risks now u).isOk = true) := by
  constructor
  · intro p now z_sys z_dia fl z_hr z_chol z_hdl z_ldl z_glu z_hba z_vo2 z_fat h1 h2
    show 0 < gen_hdl p z_chol z_hdl
    unfold gen_hdl
    exact lt_min h1 (by linarith)
  · intro now u hne
    refine ⟨?_, ?_, ?_⟩
    · unfold predict_life_expectancy pdiv
      rw [if_neg hne]
      rfl
    · unfold calculate_biological_age pdiv
      rw [if_neg hne]
      rfl
    · unfold calculate_health_risks pdiv
      rw [if_neg hne]
      rfl

/-- Witness for claim C7: with all-zero draws the generated HDL is positive,
and on the concrete record `uC1` (HDL 35) all three scoring functions
succeed. -/
theorem C7_witness :
    0 < (generate_health_metrics sampleProfile "t" 0 0 0 0 0 0 0 0 0 0 0).cholesterol.hdl
    ∧ ((predict_life_expectancy "t" uC1).isOk = true
      ∧ (calculate_biological_age "t" uC1).isOk = true
      ∧ (calculate_health_risks "t" uC1).isOk = true) :=
  ⟨C7_hdl_positive_amended.1 sampleProfile "t" 0 0 0 0 0 0 0 0 0 0 0
      (by simp [gen_hdl_raw, sampleProfile, pyRound]; norm_num [rndE])
      (by simp [gen_cholesterol_total, sampleProfile, pyRound, max_def]; norm_num [rndE]),
   C7_hdl_positive_amended.2 "t" uC1 (by norm_num [uC1, sampleMetrics])⟩

/-! ## Claim C10 -/

/-- Counterexample to claim C10 as stated: a record whose categorical fields
are all out of vocabulary but whose HDL is zero still makes
`predict_life_expectancy` fail with a division error, so "does not fail" does
not hold for ANY record with unrecognized categoricals. -/
theorem C10_counterexample :
    unrecognized_categoricals uC10
    ∧ predict_life_expectancy "t" uC10 = .error "division by zero" := by
  constructor
  · unfold unrecognized_categoricals
    decide
  · unfold predict_life_expectancy pdiv
    simp [uC10, uC1, sampleMetrics]

/-- Claim C10 (amended): on any record whose categorical fields fall outside
their vocabularies after lowercasing, provided the cholesterol division is
well-defined (HDL nonzero), `predict_life_expectancy` succeeds and silently
records an adjustment contribution of 0 for each unrecognized categorical
value: the Smoking, Alcohol and Stress factors are 0, the Sleep factor is the
hours-deficit term alone, and the Diet factor is the servings and diet-type
terms alone. -/
theorem C10_unrecognized_defaults (now : String) (u : UserData)
    (hv : unrecognized_categoricals u) (hne : u.health_metrics.cholesterol.hdl ≠ 0) :
    (predict_life_expectancy now u).isOk = true
    ∧ ∀ p, predict_life_expectancy now u = .ok p →
        p.factors[0]? = some ("Smoking", 0)
        ∧ p.factors[7]? = some ("Alcohol", 0)
        ∧ p.factors[8]? = some ("Stress", 0)
        ∧ p.factors[6]? = some ("Sleep",
            if u.lifestyle_data.sleep.average_hours < 15/2 then
              (u.lifestyle_data.sleep.average_hours - 15/2) * (-1/2)
            else 0)
        ∧ p.factors[5]? = some ("Diet",
            u.lifestyle_data.diet.fruit_veg_servings_daily * (2/5)
            + (if pyLower u.lifestyle_data.diet.type = "mediterranean" then 5/2 else 0)) := by
  obtain ⟨v1, v2, v3, v4, v5, v6, v7, v8, v9, v10, v11, v12, v13, v14, v15, v16, v17, v18,
    v19⟩ := hv
  constructor
  · unfold predict_life_expectancy pdiv
    rw [if_neg hne]
    rfl
  · intro p hp
    unfold predict_life_expectancy at hp
    split at hp
    · simp at hp
    · rename_i r heq
      simp only [Except.ok.injEq] at hp
      subst hp
      refine ⟨?_, ?_, ?_, ?_, ?_⟩
      · show (adjustments_list u r)[0]? = some ("Smoking", 0)
        simp [adjustments_list, smoking_adj, smokingW, v1, v2, v3]
      · show (adjustments_list u r)[7]? = some ("Alcohol", 0)
        simp [adjustments_list, alcohol_adj, alcoholW, v4, v5, v6, v7]
      · show (adjustments_list u r)[8]? = some ("Stress", 0)
        simp [adjustments_list, stress_adj, stressW, v8, v9, v10, v11]
      · show (adjustments_list u r)[6]? = some ("Sleep", _)
        simp [adjustments_list, sleep_adj, sleepQualityW, v12, v13, v14, v15]
      · show (adjustments_list u r)[5]? = some ("Diet", _)
        simp [adjustments_list, diet_adj, processedFoodW, v16, v17, v18, v19]

/-- Witness for claim C10 at the concrete record `uC10w` (out-of-vocabulary
categoricals, HDL 35). -/
theorem C10_witness :
    unrecognized_categoricals uC10w
    ∧ uC10w.health_metrics.cholesterol.hdl ≠ 0
    ∧ ((predict_life_expectancy "t" uC10w).isOk = true
      ∧ ∀ p, predict_life_expectancy "t" uC10w = .ok p →
          p.factors[0]? = some ("Smoking", 0)
          ∧ p.factors[7]? = some ("Alcohol", 0)
          ∧ p.factors[8]? = some ("Stress", 0)
          ∧ p.factors[6]? = some ("Sleep",
              if uC10w.lifestyle_data.sleep.average_hours < 15/2 then
                (uC10w.lifestyle_data.sleep.average_hours - 15/2) * (-1/2)
              else 0)
          ∧ p.factors[5]? = some ("Diet",
              uC10w.lifestyle_data.diet.fruit_veg_servings_daily * (2/5)
              + (if pyLower uC10w.lifestyle_data.diet.type = "mediterranean" then 5/2
                 else 0))) := by
  have hv : unrecognized_categoricals uC10w := by
    unfold unrecognized_categoricals
    decide
  have hne : uC10w.health_metrics.cholesterol.hdl ≠ 0 := by
    norm_num [uC10w, uC1, sampleMetrics]
  exact ⟨hv, hne, C10_unrecognized_defaults "t" uC10w hv hne⟩

end LifeMS
